import Mathlib

/-!
Verification development for the gouda_http_server HTTP/1.1 origin server.

The C++ sources are shallowly embedded: `std::string` is modelled as
`List Char` (`Str`), sizes as `Nat`, fallible operations as `Option`,
the socket input stream as the list of payloads returned by successive
successful `recv` calls, and the filesystem as an explicit oracle record.
Every definition mirrors the function of the same name in the repository;
deviations forced by the modelling (fuel for `while` loops, oracles for
OS calls) are noted in comments at the definition they concern.
-/

set_option maxRecDepth 20000
set_option maxHeartbeats 1000000

/-- Byte-string model of `std::string` / `std::string_view`: a list of
characters, indexed by `Nat` positions. -/
abbrev Str := List Char

/-- ASCII `std::tolower` as used throughout the server (only A-Z move). -/
def cToLower (c : Char) : Char :=
  if 65 ≤ c.toNat ∧ c.toNat ≤ 90 then Char.ofNat (c.toNat + 32) else c

/-- C `isspace` for the default locale: space, tab, newline, vertical tab,
form feed, carriage return. -/
def cIsSpace (c : Char) : Bool :=
  c == ' ' || c == '\t' || c == '\n' || c == '\x0b' || c == '\x0c' || c == '\r'

/-- C `isdigit`. -/
def cIsDigit (c : Char) : Bool :=
  48 ≤ c.toNat && c.toNat ≤ 57

/-- C `isxdigit`. -/
def cIsXDigit (c : Char) : Bool :=
  cIsDigit c || (97 ≤ c.toNat && c.toNat ≤ 102) || (65 ≤ c.toNat && c.toNat ≤ 70)

/-- Numeric value of a hexadecimal digit (as `std::stoi(hex, nullptr, 16)`
computes it for a two-digit hex string). -/
def hexVal (c : Char) : Nat :=
  if cIsDigit c then c.toNat - 48
  else if 97 ≤ c.toNat then c.toNat - 87
  else c.toNat - 55

/-- `s` begins with `pat` (character-exact), as used by `std::string::find`
candidate tests and `starts_with`. -/
def strStartsWith : Str → Str → Bool
  | _, [] => true
  | [], _ :: _ => false
  | a :: s, b :: p => a == b && strStartsWith s p

/-- Core of `std::string::find(pat)`: first index `≥ i` (the accumulator)
where `pat` occurs. Returns `none` for `npos`. -/
def strFindAux : Str → Str → Nat → Option Nat
  | s, pat, i =>
    if strStartsWith s pat then some i
    else
      match s with
      | [] => none
      | _ :: rest => strFindAux rest pat (i + 1)

/-- `std::string::find(pat, pos)`: search from absolute position `pos`. -/
def strFindFrom (s pat : Str) (pos : Nat) : Option Nat :=
  (strFindAux (s.drop pos) pat 0).map (· + pos)

/-- `s.find(pat) != std::string::npos`. -/
def containsSub (s pat : Str) : Bool :=
  (strFindAux s pat 0).isSome

/-- First index `≥ pos` whose character satisfies `p`
(`find_first_of` over a character class / `find` of a single char). -/
def findCharFrom (s : Str) (p : Char → Bool) (pos : Nat) : Option Nat :=
  match strCharAux (s.drop pos) p 0 with
  | some i => some (i + pos)
  | none => none
where
  strCharAux : Str → (Char → Bool) → Nat → Option Nat
    | [], _, _ => none
    | c :: rest, p, i => if p c then some i else strCharAux rest p (i + 1)

/-- `std::string::substr(pos, len)`. -/
def strSubstr (s : Str) (pos len : Nat) : Str :=
  (s.drop pos).take len

--
-- HeaderMap: std::flat_map<std::string, std::string, CaseInsensitiveCompare>
--

/-- `CaseInsensitiveCompare::operator()`: lexicographical comparison of two
strings after per-character ASCII lowercasing (http_structs.hpp). -/
def ciLess : Str → Str → Bool
  | _, [] => false
  | [], _ :: _ => true
  | a :: s, b :: t =>
    if (cToLower a).toNat < (cToLower b).toNat then true
    else if (cToLower b).toNat < (cToLower a).toNat then false
    else ciLess s t

/-- Header map model: an association list kept sorted by `ciLess` on the
keys, exactly the representation invariant of `std::flat_map`. -/
abbrev HeaderMap := List (Str × Str)

/-- `flat_map::emplace`: inserts `(k, v)` at its sorted position, and does
nothing when a key `ciLess`-equivalent to `k` is already present.  This is
the operation `HttpRequest::set_header` / `HttpResponse::set_header` call. -/
def hmEmplace : HeaderMap → Str → Str → HeaderMap
  | [], k, v => [(k, v)]
  | (k', v') :: rest, k, v =>
    if ciLess k k' then (k, v) :: (k', v') :: rest
    else if ciLess k' k then (k', v') :: hmEmplace rest k v
    else (k', v') :: rest

/-- `flat_map::find`: the value stored under the `ciLess`-equivalent key. -/
def hmFind : HeaderMap → Str → Option Str
  | [], _ => none
  | (k', v') :: rest, k =>
    if !(ciLess k k') && !(ciLess k' k) then some v' else hmFind rest k

/-- `flat_map::contains`. -/
def hmContains (m : HeaderMap) (k : Str) : Bool :=
  (hmFind m k).isSome

--
-- Enums and constants (http_structs.hpp, http_constants.hpp)
--

/-- `enum class HttpMethod`. -/
inductive HttpMethod where
  | UNKNOWN | GET | POST | PUT | DELETE | HEAD | OPTIONS | PATCH | TRACE | CONNECT
deriving DecidableEq, Repr

/-- `enum class HttpVersion`. -/
inductive HttpVersion where
  | HTTP_0_9 | HTTP_1_0 | HTTP_1_1 | HTTP_2_0 | HTTP_3_0
deriving DecidableEq, Repr

/-- `get_method`: exact-case lookup of the method token in `method_strings`
(first matching table entry wins; everything else is `UNKNOWN`). -/
def get_method (s : Str) : HttpMethod :=
  if s == "GET".toList then .GET
  else if s == "POST".toList then .POST
  else if s == "PUT".toList then .PUT
  else if s == "DELETE".toList then .DELETE
  else if s == "HEAD".toList then .HEAD
  else if s == "OPTIONS".toList then .OPTIONS
  else if s == "PATCH".toList then .PATCH
  else if s == "TRACE".toList then .TRACE
  else if s == "CONNECT".toList then .CONNECT
  else .UNKNOWN

/-- `string_to_http_version`: map lookup defaulting to HTTP/1.1. -/
def string_to_http_version (s : Str) : HttpVersion :=
  if s == "HTTP/0.9".toList then .HTTP_0_9
  else if s == "HTTP/1.0".toList then .HTTP_1_0
  else if s == "HTTP/1.1".toList then .HTTP_1_1
  else if s == "HTTP/2".toList then .HTTP_2_0
  else if s == "HTTP/3".toList then .HTTP_3_0
  else .HTTP_1_1

/-- `http_version_to_string_view`. -/
def http_version_to_string_view : HttpVersion → Str
  | .HTTP_0_9 => "HTTP/0.9".toList
  | .HTTP_1_0 => "HTTP/1.0".toList
  | .HTTP_1_1 => "HTTP/1.1".toList
  | .HTTP_2_0 => "HTTP/2".toList
  | .HTTP_3_0 => "HTTP/3".toList

def SERVER_NAME_VERSION : Str := "GoudaWebserver/1.0".toList
def POWERED_BY_TEXT : Str := "C++23 and ☕".toList
def CONTENT_TYPE_PLAIN : Str := "text/plain".toList
def CONTENT_TYPE_PLAIN_UTF8 : Str := "text/plain; charset=utf-8".toList
def CONTENT_TYPE_JSON : Str := "application/json".toList
def CONTENT_TYPE_OCTET_STREAM : Str := "application/octet-stream".toList
def CONTENT_TYPE_FORM_URLENCODED : Str := "application/x-www-form-urlencoded".toList
def CONTENT_TYPE_PLAIN_FULL : Str := "Content-Type: text/plain".toList
def CONTENT_TYPE_JSON_FULL : Str := "Content-Type: application/json".toList

--
-- HTTP request/response structures (http_structs.hpp)
--

/-- `struct HttpRequestRange` (`end == 0` means "to end of resource"). -/
structure HttpRequestRange where
  start : Nat := 0
  end_ : Nat := 0
deriving DecidableEq, Repr

/-- `struct HttpStreamData`. -/
structure HttpStreamData where
  file_path : Str
  file_size : Nat := 0
  offset : Nat := 0
deriving DecidableEq, Repr

/-- `std::variant<std::string, HttpStreamData>` response body. -/
inductive HttpBody where
  | inl (s : Str)
  | stream (d : HttpStreamData)
deriving DecidableEq, Repr

/-- Query and form parameter container,
`std::map<std::string, std::vector<std::string>>`: association list kept
sorted by byte-wise `std::less<std::string>` on the keys. -/
abbrev ParamMap := List (Str × List Str)

/-- `struct HttpRequest` (the WebSocket fields are omitted: they feed only
the partial upgrade stub that is out of the specification's scope). -/
structure HttpRequest where
  method : HttpMethod := .UNKNOWN
  version : HttpVersion := .HTTP_1_1
  path : Str := []
  headers : HeaderMap := []
  body : Str := []
  raw : Str := []
  range : Option HttpRequestRange := none
  query_params : ParamMap := []
  form_params : ParamMap := []
deriving DecidableEq, Repr

/-- `HttpRequest::set_header`: `headers.emplace(key, value)`. -/
def HttpRequest.set_header (r : HttpRequest) (key value : Str) : HttpRequest :=
  { r with headers := hmEmplace r.headers key value }

/-- `HttpRequest::get_header`. -/
def HttpRequest.get_header (r : HttpRequest) (key : Str) : Option Str :=
  hmFind r.headers key

/-- `HttpRequest::has_header`. -/
def HttpRequest.has_header (r : HttpRequest) (key : Str) : Bool :=
  hmContains r.headers key

/-- Headers installed by `HttpResponse::set_default_headers` on a freshly
constructed response (`try_emplace "X-Powered-By"`, then `try_emplace
"Server"`, starting from an empty map). -/
def defaultHeaders : HeaderMap :=
  hmEmplace (hmEmplace [] "X-Powered-By".toList POWERED_BY_TEXT)
    "Server".toList SERVER_NAME_VERSION

/-- `struct HttpResponse`. Status codes are carried as their numeric
values (`HttpStatusCode` is a `u16` enum). -/
structure HttpResponse where
  status_code : Nat := 200
  content_type : Str := CONTENT_TYPE_PLAIN_UTF8
  headers : HeaderMap := defaultHeaders
  body : HttpBody := .inl []
deriving DecidableEq, Repr

/-- The `HttpResponse(status, body, content_type)` constructor for string
bodies: default headers plus `set_header("Content-Type", content_type)`. -/
def HttpResponse.mkInl (status : Nat) (body : Str) (ct : Str) : HttpResponse :=
  { status_code := status, content_type := ct,
    headers := hmEmplace defaultHeaders "Content-Type".toList ct,
    body := .inl body }

/-- The `HttpResponse(status, HttpStreamData, content_type)` constructor. -/
def HttpResponse.mkStream (status : Nat) (d : HttpStreamData) (ct : Str) : HttpResponse :=
  { status_code := status, content_type := ct,
    headers := hmEmplace defaultHeaders "Content-Type".toList ct,
    body := .stream d }

/-- `HttpResponse::set_header`: `headers.emplace(key, value)`. -/
def HttpResponse.set_header (r : HttpResponse) (key value : Str) : HttpResponse :=
  { r with headers := hmEmplace r.headers key value }

/-- `HttpResponse::get_header`. -/
def HttpResponse.get_header (r : HttpResponse) (key : Str) : Option Str :=
  hmFind r.headers key

/-- `status_code_to_string_view` restricted to its lookup table
(http_status.hpp); absent codes give "Unknown". -/
def status_code_to_string_view (code : Nat) : Str :=
  (if code == 100 then "Continue"
  else if code == 101 then "Switching Protocols"
  else if code == 102 then "Processing"
  else if code == 103 then "Early Hints"
  else if code == 200 then "OK"
  else if code == 201 then "Created"
  else if code == 202 then "Accepted"
  else if code == 203 then "Non-Authoritative Information"
  else if code == 204 then "No Content"
  else if code == 205 then "Reset Content"
  else if code == 206 then "Partial Content"
  else if code == 207 then "Multi-Status"
  else if code == 208 then "Already Reported"
  else if code == 226 then "IM Used"
  else if code == 300 then "Multiple Choices"
  else if code == 301 then "Moved Permanently"
  else if code == 302 then "Found"
  else if code == 303 then "See Other"
  else if code == 304 then "Not Modified"
  else if code == 305 then "Use Proxy"
  else if code == 306 then "Switch Proxy"
  else if code == 307 then "Temporary Redirect"
  else if code == 308 then "Permanent Redirect"
  else if code == 400 then "Bad Request"
  else if code == 401 then "Unauthorized"
  else if code == 402 then "Payment Required"
  else if code == 403 then "Forbidden"
  else if code == 404 then "Not Found"
  else if code == 405 then "Method Not Allowed"
  else if code == 406 then "Not Acceptable"
  else if code == 407 then "Proxy Authentication Required"
  else if code == 408 then "Request Timeout"
  else if code == 409 then "Conflict"
  else if code == 410 then "Gone"
  else if code == 411 then "Length Required"
  else if code == 412 then "Precondition Failed"
  else if code == 413 then "Payload Too Large"
  else if code == 414 then "URI Too Long"
  else if code == 415 then "Unsupported Media Type"
  else if code == 416 then "Range Not Satisfiable"
  else if code == 417 then "Expectation Failed"
  else if code == 418 then "I'm a teapot"
  else if code == 421 then "Misdirected Request"
  else if code == 422 then "Unprocessable Entity"
  else if code == 423 then "Locked"
  else if code == 424 then "Failed Dependency"
  else if code == 425 then "Too Early"
  else if code == 426 then "Upgrade Required"
  else if code == 428 then "Precondition Required"
  else if code == 429 then "Too Many Requests"
  else if code == 431 then "Request Header Fields Too Large"
  else if code == 451 then "Unavailable For Legal Reasons"
  else if code == 500 then "Internal Server Error"
  else if code == 501 then "Not Implemented"
  else if code == 502 then "Bad Gateway"
  else if code == 503 then "Service Unavailable"
  else if code == 504 then "Gateway Timeout"
  else if code == 505 then "HTTP Version Not Supported"
  else if code == 506 then "Variant Also Negotiates"
  else if code == 507 then "Insufficient Storage"
  else if code == 508 then "Loop Detected"
  else if code == 510 then "Not Extended"
  else if code == 511 then "Network Authentication Required"
  else "Unknown").toList

--
-- http_utils.hpp
--

/-- Leading-whitespace strip used by `trim`. -/
def trimLeft : Str → Str
  | [] => []
  | c :: r => if cIsSpace c then trimLeft r else c :: r

/-- `trim`: strip leading and trailing whitespace. -/
def trim (s : Str) : Str :=
  (trimLeft (trimLeft s).reverse).reverse

/-- `to_lowercase`. -/
def to_lowercase (s : Str) : Str :=
  s.map cToLower

/-- Splitting on a single separator character, used to model the manual
`&`-splitting loop of `parse_query_params` (which also never visits a
trailing empty piece; that piece is empty and hence skipped either way). -/
def splitChar (s : Str) (sep : Char) : List Str :=
  match s with
  | [] => [[]]
  | c :: rest =>
    match splitChar rest sep with
    | [] => [[]]
    | g :: gs => if c == sep then [] :: g :: gs else (c :: g) :: gs

/-- `split_lines`: `std::views::split` on "\r\n" (keeps empty pieces),
with fuel for the well-founded search (every step consumes at least the
separator, so `s.length + 1` steps always suffice). -/
def splitOnSubFuel : Nat → Str → Str → List Str
  | 0, s, _ => [s]
  | fuel + 1, s, sep =>
    match strFindAux s sep 0 with
    | none => [s]
    | some i => strSubstr s 0 i :: splitOnSubFuel fuel (s.drop (i + sep.length)) sep

/-- `split_lines`. -/
def split_lines (s : Str) : List Str :=
  splitOnSubFuel (s.length + 1) s "\r\n".toList

/-- Fuel-driven body of `url_decode`; the fuel only serves structural
recursion and never runs out when it starts at the string length, since
every step consumes at least one character. -/
def urlDecodeFuel : Nat → Str → Str
  | 0, _ => []
  | _ + 1, [] => []
  | fuel + 1, c :: rest =>
    if c == '+' then ' ' :: urlDecodeFuel fuel rest
    else if c == '%' then
      match rest with
      | h1 :: h2 :: rest2 =>
        if cIsXDigit h1 && cIsXDigit h2 then
          Char.ofNat (hexVal h1 * 16 + hexVal h2) :: urlDecodeFuel fuel rest2
        else c :: urlDecodeFuel fuel rest
      | _ => c :: urlDecodeFuel fuel rest
    else c :: urlDecodeFuel fuel rest

/-- `url_decode`: `+` becomes a space; `%HH` with two hex digits and at
least one following position (`i + 2 < sv.size()`) decodes to the byte
value; everything else is copied.  (The `std::stoi` inside can never throw
for two checked hex digits, so the catch branch is dead.) -/
def url_decode (s : Str) : Str :=
  urlDecodeFuel s.length s

/-- Byte-wise `std::less<std::string>` on strings. -/
def strLess : Str → Str → Bool
  | _, [] => false
  | [], _ :: _ => true
  | a :: s, b :: t =>
    if a.toNat < b.toNat then true
    else if b.toNat < a.toNat then false
    else strLess s t

/-- `params[key].push_back(value)` on the sorted `std::map` model. -/
def pmAppend : ParamMap → Str → Str → ParamMap
  | [], k, v => [(k, [v])]
  | (k', vs) :: rest, k, v =>
    if strLess k k' then (k, [v]) :: (k', vs) :: rest
    else if strLess k' k then (k', vs) :: pmAppend rest k v
    else (k', vs ++ [v]) :: rest

/-- `std::map::find` on the parameter model. -/
def pmFind : ParamMap → Str → Option (List Str)
  | [], _ => none
  | (k', vs) :: rest, k => if k == k' then some vs else pmFind rest k

/-- Body of the `parse_query_params` loop for one `&`-separated piece:
trim it, skip it when empty, split at the first `=`, URL-decode the
trimmed key and value, warn-and-skip empty keys, accumulate the rest. -/
def queryPairStep (params : ParamMap) (piece : Str) : ParamMap :=
  let pair := trim piece
  if pair == [] then params
  else
    let kv :=
      match findCharFrom pair (· == '=') 0 with
      | some eq_pos =>
        (url_decode (trim (strSubstr pair 0 eq_pos)),
         url_decode (trim (pair.drop (eq_pos + 1))))
      | none => (url_decode (trim pair), [])
    if kv.1 == [] then params else pmAppend params kv.1 kv.2

/-- `parse_query_params`: iterate the `&`-separated pieces of the query in
order, accumulating into `params`. -/
def parse_query_params (query : Str) (params : ParamMap) : ParamMap :=
  if query == [] then params
  else (splitChar query '&').foldl queryPairStep params

/-- `contains_ignore_case` (`std::ranges::search` on lowercased views). -/
def contains_ignore_case (str sub : Str) : Bool :=
  if sub == [] then true
  else if str == [] then false
  else containsSub (str.map cToLower) (sub.map cToLower)

/-- Decimal digit string to number, as `std::stoul` reads an all-digit
string.  Values above `unsigned long` range make `stoul` throw, which every
caller in the server turns into the same failure path as an over-limit
value, so unbounded `Nat` arithmetic is observably equivalent there. -/
def digitsToNat (s : Str) : Nat :=
  s.foldl (fun acc c => acc * 10 + (c.toNat - 48)) 0

/-- Decimal rendering of a number (`std::to_string` / `std::format` "{}"). -/
def natToStr (n : Nat) : Str :=
  (Nat.repr n).toList

/-- `ERROR_403_HTML` (raw string literal, leading and trailing newline
included). -/
def ERROR_403_HTML : Str :=
  ("\n<!DOCTYPE html>\n<html>\n<head><title>403 Forbidden</title></head>\n<body>\n<h1>403 Forbidden</h1>\n<p>Access to the requested resource is denied.</p>\n</body>\n</html>\n").toList

/-- `ERROR_404_HTML`. -/
def ERROR_404_HTML : Str :=
  ("\n<!DOCTYPE html>\n<html>\n<head><title>404 Not Found</title></head>\n<body>\n  <h1>404</h1>\n  <p>Oops! The page you’re looking for can’t be found.</p>\n  <p><a href=\"/\">Return to Home</a></p>\n</body>\n</html>\n").toList

/-- `ERROR_416_HTML`. -/
def ERROR_416_HTML : Str :=
  ("\n<!DOCTYPE html>\n<html>\n<head><title>416 Range Not Satisfiable</title></head>\n<body>\n<h1>416 Range Not Satisfiable</h1>\n<p>An error occurred while processing your request.</p>\n</body>\n</html>\n").toList

/-- `ERROR_500_HTML`. -/
def ERROR_500_HTML : Str :=
  ("\n<!DOCTYPE html>\n<html>\n<head><title>500 Internal Server Error</title></head>\n<body>\n<h1>500 Internal Server Error</h1>\n<p>An error occurred while processing your request.</p>\n</body>\n</html>\n").toList

/-- Serialization of `Json(std::initializer_list)::dump()` for the
single-field error objects the server builds
(`Json ... .dump()` prints compactly with no spaces). -/
def jsonError (msg : Str) : Str :=
  "\x7b\"error\":\"".toList ++ msg ++ "\"\x7d".toList

--
-- HttpRequestParser (http_request_parser.cpp)
--

namespace HttpRequestParser

/-- The `Range` header matcher: `std::regex_match` against
`bytes=(\d+)-(\d*)` followed by `stoull` on the captures; an absent upper
bound is stored as `0`.  (`stoull` overflow, which the source maps to the
same `nullopt`, cannot occur with unbounded `Nat`; no claim depends on
64-bit-overflowing digit strings.) -/
def rangeMatch (v : Str) : Option (Nat × Nat) :=
  if strStartsWith v "bytes=".toList then
    let rest := v.drop 6
    let ds1 := rest.takeWhile cIsDigit
    if ds1 == [] then none
    else
      match rest.drop ds1.length with
      | '-' :: ds2 =>
        if ds2.all cIsDigit then
          some (digitsToNat ds1, if ds2 == [] then 0 else digitsToNat ds2)
        else none
      | _ => none
  else none

/-- Header-line loop of `HttpRequestParser::parse`: empty lines and lines
without `:` are skipped; the lowercased key and trimmed value are stored
with `set_header`; a present-but-malformed `Range` header aborts the parse.
The `Upgrade`/`Sec-WebSocket-*` branches only populate the WebSocket
upgrade stub that is outside the modelled state, so they are omitted. -/
def parseHeaderLines : List Str → HttpRequest → Option HttpRequest
  | [], req => some req
  | line :: rest, req =>
    if line == [] then parseHeaderLines rest req
    else
      match findCharFrom line (· == ':') 0 with
      | none => parseHeaderLines rest req
      | some colon_pos =>
        let key_lower := to_lowercase (trim (strSubstr line 0 colon_pos))
        let value := trim (line.drop (colon_pos + 1))
        let req' := req.set_header key_lower value
        if key_lower == "range".toList then
          match rangeMatch value with
          | some se => parseHeaderLines rest { req' with range := some ⟨se.1, se.2⟩ }
          | none => none
        else parseHeaderLines rest req'

/-- `HttpRequestParser::parse`: pure function from one request's bytes to a
structured request or a parse error (`std::nullopt`). -/
def parse (request_view : Str) : Option HttpRequest :=
  match strFindAux request_view "\r\n".toList 0 with
  | none => none
  | some first_line_end =>
    match strFindAux request_view "\r\n\r\n".toList 0 with
    | none => none
    | some headers_end =>
      let first_line := strSubstr request_view 0 first_line_end
      match findCharFrom first_line (· == ' ') 0 with
      | none => none
      | some method_end =>
        match findCharFrom first_line (· == ' ') (method_end + 1) with
        | none => none
        | some path_end =>
          let full_path := strSubstr first_line (method_end + 1) (path_end - method_end - 1)
          let pq : Str × ParamMap :=
            match findCharFrom full_path (· == '?') 0 with
            | some query_start =>
              (strSubstr full_path 0 query_start,
               parse_query_params (full_path.drop (query_start + 1)) [])
            | none => (full_path, [])
          let req0 : HttpRequest :=
            { method := get_method (strSubstr first_line 0 method_end),
              version := string_to_http_version (first_line.drop (path_end + 1)),
              path := pq.1, query_params := pq.2, raw := request_view }
          let headers_block :=
            strSubstr request_view (first_line_end + 2) (headers_end - first_line_end - 2)
          match parseHeaderLines (split_lines headers_block) req0 with
          | none => none
          | some req1 =>
            if headers_end + 4 < request_view.length then
              let body := request_view.drop (headers_end + 4)
              let req2 := { req1 with body := body }
              if req2.method == HttpMethod.POST then
                match hmFind req2.headers "content-type".toList with
                | some ct =>
                  if containsSub ct CONTENT_TYPE_FORM_URLENCODED then
                    some { req2 with form_params := parse_query_params body [] }
                  else some req2
                | none => some req2
              else some req2
            else some req1

end HttpRequestParser

--
-- HttpResponseBuilder (http_response_builder.cpp)
--

namespace HttpResponseBuilder

/-- One `key: value\r\n` line per stored header, in `flat_map` iteration
order. -/
def headerLines (headers : HeaderMap) : Str :=
  headers.foldl (fun acc kv => acc ++ kv.1 ++ ": ".toList ++ kv.2 ++ "\r\n".toList) []

/-- `HttpResponseBuilder::build`: status line, stored headers, then the
`Content-Length` derived from the body variant, a blank line, and the
inline body if any.  (The `WebSocketResponseData` variant of the stub does
not exist in the modelled body type.) -/
def build (response : HttpResponse) : Str :=
  http_version_to_string_view .HTTP_1_1 ++ " ".toList
  ++ natToStr response.status_code ++ " ".toList
  ++ status_code_to_string_view response.status_code ++ "\r\n".toList
  ++ headerLines response.headers
  ++ (match response.body with
      | .inl b => "Content-Length: ".toList ++ natToStr b.length ++ "\r\n\r\n".toList ++ b
      | .stream d => "Content-Length: ".toList ++ natToStr d.file_size ++ "\r\n\r\n".toList)

/-- `HttpResponseBuilder::build_headers_only`: status line, stored headers,
blank line; no derived `Content-Length`. -/
def build_headers_only (response : HttpResponse) : Str :=
  http_version_to_string_view .HTTP_1_1 ++ " ".toList
  ++ natToStr response.status_code ++ " ".toList
  ++ status_code_to_string_view response.status_code ++ "\r\n".toList
  ++ headerLines response.headers
  ++ "\r\n".toList

end HttpResponseBuilder

--
-- ClientHandler (client_handler.cpp)
--

/-- Stand-in for the external `nlohmann::json` value type (out of the
modelled scope; JSON bodies only pass through to route handlers). -/
def Json : Type := Unit

/-- `struct ClientHandlerConfig` (the fields the framing logic reads;
timeouts, the debug flag and the stream buffer size only affect socket
options, logging and write chunking). -/
structure ClientHandlerConfig where
  max_requests : Nat := 100
  max_header_size : Nat := 8192
  max_content_length : Nat := 1048576

namespace ClientHandler

/-- `ClientHandler::should_keep_alive`: an explicit `Connection` header is
compared, byte for byte, against "keep-alive" (the lookup itself goes
through the case-insensitive map); absent that header, keep alive exactly
for HTTP/1.1. -/
def should_keep_alive (request : HttpRequest) : Bool :=
  match hmFind request.headers "Connection".toList with
  | some v => v == "keep-alive".toList
  | none => request.version == HttpVersion.HTTP_1_1

/-- The literal scanned for by `ClientHandler::get_content_length`. -/
def clPattern : Str := "Content-Length:".toList

/-- The `while ((pos = headers.find("Content-Length:", pos)))` loop:
counts occurrences and remembers the start of the last run of digits found
after an occurrence.  Fuel only drives the recursion; the scan position
advances by the pattern length every round, so `headers.length + 1` rounds
always suffice. -/
def clScanLoop : Nat → Str → Nat → Nat → Option Nat → Nat × Option Nat
  | 0, _, _, count, lvs => (count, lvs)
  | fuel + 1, headers, pos, count, lvs =>
    match strFindFrom headers clPattern pos with
    | none => (count, lvs)
    | some i =>
      let pos' := i + clPattern.length
      let lvs' :=
        match findCharFrom headers cIsDigit pos' with
        | some value_start => some value_start
        | none => lvs
      clScanLoop fuel headers pos' (count + 1) lvs'

/-- `ClientHandler::get_content_length`: more than one occurrence of the
literal "Content-Length:" is a framing error (`nullopt`); zero occurrences
(or no digits anywhere after one) frames the request as bodyless
(`some 0`); otherwise the digit run is read and checked against
`max_content_length`. -/
def get_content_length (cfg : ClientHandlerConfig) (headers : Str) : Option Nat :=
  let scan := clScanLoop (headers.length + 1) headers 0 0 none
  if scan.1 > 1 then none
  else if scan.1 == 0 then some 0
  else
    match scan.2 with
    | none => some 0
    | some last_value_start =>
      let value0 := headers.drop last_value_start
      let value1 :=
        match findCharFrom value0 (fun c => !(cIsDigit c)) 0 with
        | some value_end => strSubstr value0 0 value_end
        | none => value0
      let value2 :=
        ((value1.dropWhile (fun c => c == ' ' || c == '\t')).reverse.dropWhile
          (fun c => c == ' ' || c == '\t' || c == '\r' || c == '\n')).reverse
      if value2 == [] then none
      else
        let length := digitsToNat value2
        if length > cfg.max_content_length then none else some length

/-- `ClientHandler::read_headers`.  The socket is modelled by the list of
payloads successive successful `recv` calls return; an exhausted list (or
an empty payload) is the `bytes_received <= 0` branch: client close,
timeout or error, all of which give `nullopt`.  On success the returned
triple is (header block, the whole buffer read so far, remaining stream);
note that for the tolerant `\n\n` terminator the source normalizes the
buffer to `\r\n\r\n` but returns only `alt_end + 2` characters of it, so
the returned block ends in a bare `\r\n`. -/
def read_headers (cfg : ClientHandlerConfig) :
    Str → List Str → Option (Str × Str × List Str)
  | buffer, chunks =>
    if buffer.length < cfg.max_header_size then
      match chunks with
      | [] => none
      | chunk :: rest =>
        if chunk == [] then none
        else
          let buf := buffer ++ chunk
          match strFindAux buf "\r\n\r\n".toList 0 with
          | some header_end => some (buf.take (header_end + 4), buf, rest)
          | none =>
            match strFindAux buf "\n\n".toList 0 with
            | some alt_end =>
              let normalized :=
                buf.take alt_end ++ "\r\n\r\n".toList ++ buf.drop (alt_end + 2)
              some (normalized.take (alt_end + 2), normalized, rest)
            | none => read_headers cfg buf rest
    else none

/-- `ClientHandler::read_body`: keep receiving while the body is short of
`content_length` and the buffer is under `max_content_length + header_end`;
report failure when the stream ends first. -/
def read_body (cfg : ClientHandlerConfig) :
    Str → Nat → Nat → List Str → Option (Str × List Str)
  | buffer, content_length, header_end, chunks =>
    if buffer.length - header_end < content_length ∧
       buffer.length < cfg.max_content_length + header_end then
      match chunks with
      | [] => none
      | chunk :: rest =>
        if chunk == [] then none
        else read_body cfg (buffer ++ chunk) content_length header_end rest
    else if buffer.length - header_end < content_length then none
    else some (buffer, chunks)

/-- `ClientHandler::read_requests`: headers, Content-Length scan, then the
body if one is announced.  A `nullopt` from any stage propagates with no
response written. -/
def read_requests (cfg : ClientHandlerConfig) (chunks : List Str) :
    Option (Str × List Str) :=
  match read_headers cfg [] chunks with
  | none => none
  | some (headers, buffer, chunks1) =>
    match get_content_length cfg headers with
    | none => none
    | some content_length =>
      if content_length > 0 then
        read_body cfg buffer content_length headers.length chunks1
      else some (buffer, chunks1)

/-- `ClientHandler::send_error_response`: build the error response and mark
the connection for closing. -/
def send_error_response (code : Nat) (body ct : Str) : HttpResponse :=
  (HttpResponse.mkInl code body ct).set_header "Connection".toList "close".toList

/-- Outcome of the parse-and-dispatch tail of one iteration of the
pipeline loop in `ClientHandler::process_single_request` (factored out of
the loop body, which the source writes inline). -/
inductive DispatchResult where
  | fail (resp : HttpResponse)
  | ok (keep_alive : Bool) (resp : HttpResponse)

/-- Parse the single request, enforce Host on HTTP/1.1, compute the
keep-alive decision, route, and stamp the `Connection` response header
(via `set_header`, i.e. `emplace`). `route` stands for the process-wide
`Router::route` with its registered routes and middleware. -/
def dispatchRequest (route : HttpRequest → Option Json → HttpResponse)
    (single : Str) (json_body : Option Json) : DispatchResult :=
  match HttpRequestParser.parse single with
  | none => .fail (send_error_response 400 "Malformed request".toList CONTENT_TYPE_PLAIN)
  | some request =>
    if request.version == HttpVersion.HTTP_1_1 &&
        !(hmContains request.headers "host".toList) then
      .fail (send_error_response 400 "Missing Host header".toList CONTENT_TYPE_PLAIN)
    else
      let keep_alive := should_keep_alive request
      let response := (route request json_body).set_header "Connection".toList
        (if keep_alive then "keep-alive".toList else "close".toList)
      .ok keep_alive response

/-- The pipeline loop of `ClientHandler::process_single_request`: carve the
next request out of the accumulated buffer, re-scan its Content-Length,
fetch any missing body bytes from the network, pre-parse JSON bodies, then
dispatch.  Returns the loop's `std::optional<bool>` result, the responses
written in order, and the unread remainder of the input stream.  Fuel only
drives the recursion: `processed` grows by at least two every round while
the buffer grows by at most the consumed stream, so
`raw.length + (total stream length) + 1` rounds always suffice. -/
def processLoop (cfg : ClientHandlerConfig)
    (route : HttpRequest → Option Json → HttpResponse)
    (jsonParse : Str → Option Json) :
    Nat → Str → Nat → List Str → Bool → List HttpResponse →
    Option Bool × List HttpResponse × List Str
  | 0, _, _, chunks, _, responses => (none, responses, chunks)
  | fuel + 1, raw, processed, chunks, keep_alive, responses =>
    if processed < raw.length then
      let fr : Option (Nat × Str) :=
        match strFindFrom raw "\r\n\r\n".toList processed with
        | some re => some (re + 4, strSubstr raw processed (re + 4 - processed))
        | none =>
          match strFindFrom raw "\n\n".toList processed with
          | some ae =>
            some (ae + 2, strSubstr raw processed (ae + 2 - processed) ++ "\r\n\r\n".toList)
          | none => none
      match fr with
      | none => (none, responses, chunks)
      | some (request_end, single0) =>
        match get_content_length cfg single0 with
        | none => (none, responses, chunks)
        | some content_length =>
          if content_length > 0 then
            let rc : Option (Str × List Str) :=
              if request_end + content_length > raw.length then
                read_body cfg raw content_length request_end chunks
              else some (raw, chunks)
            match rc with
            | none => (none, responses, chunks)
            | some (raw1, chunks1) =>
              let body0 := strSubstr raw1 request_end content_length
              let isJson := containsSub single0 CONTENT_TYPE_JSON_FULL
              let isPlain := containsSub single0 CONTENT_TYPE_PLAIN_FULL
              let body :=
                if isJson || isPlain then (body0.reverse.dropWhile cIsSpace).reverse
                else body0
              let processed1 := request_end + content_length
              if isJson then
                match jsonParse body with
                | none =>
                  (none,
                   responses ++ [send_error_response 400 "Invalid JSON".toList CONTENT_TYPE_PLAIN],
                   chunks1)
                | some j =>
                  match dispatchRequest route (single0 ++ body) (some j) with
                  | .fail resp => (none, responses ++ [resp], chunks1)
                  | .ok ka resp =>
                    if !ka then (some false, responses ++ [resp], chunks1)
                    else processLoop cfg route jsonParse fuel raw1 processed1 chunks1 ka
                      (responses ++ [resp])
              else
                match dispatchRequest route (single0 ++ body) none with
                | .fail resp => (none, responses ++ [resp], chunks1)
                | .ok ka resp =>
                  if !ka then (some false, responses ++ [resp], chunks1)
                  else processLoop cfg route jsonParse fuel raw1 processed1 chunks1 ka
                    (responses ++ [resp])
          else
            match dispatchRequest route single0 none with
            | .fail resp => (none, responses ++ [resp], chunks)
            | .ok ka resp =>
              if !ka then (some false, responses ++ [resp], chunks)
              else processLoop cfg route jsonParse fuel raw request_end chunks ka
                (responses ++ [resp])
    else (some keep_alive, responses, chunks)

/-- Total length of the not-yet-consumed input stream. -/
def chunksLen (chunks : List Str) : Nat :=
  (chunks.map List.length).sum

/-- `ClientHandler::process_single_request`: one read batch.  `none` means
the connection is torn down (the remaining-stream component is then dead:
the handler never reads again). -/
def process_single_request (cfg : ClientHandlerConfig)
    (route : HttpRequest → Option Json → HttpResponse)
    (jsonParse : Str → Option Json) (chunks : List Str) :
    Option Bool × List HttpResponse × List Str :=
  match read_requests cfg chunks with
  | none => (none, [], chunks)
  | some (raw, chunks1) =>
    processLoop cfg route jsonParse (raw.length + chunksLen chunks1 + 1) raw 0 chunks1
      false []

/-- The `while (handled_requests < m_config.max_requests)` loop of
`ClientHandler::handle`, structured over the remaining allowance.  Returns
how many times `process_single_request` ran (read batches) and every
response written on the connection, in order. -/
def handleLoop (cfg : ClientHandlerConfig)
    (route : HttpRequest → Option Json → HttpResponse)
    (jsonParse : Str → Option Json) : Nat → List Str → Nat × List HttpResponse
  | 0, _ => (0, [])
  | allowance + 1, chunks =>
    match process_single_request cfg route jsonParse chunks with
    | (none, responses, _) => (1, responses)
    | (some false, responses, _) => (1, responses)
    | (some true, responses, chunks1) =>
      let rest := handleLoop cfg route jsonParse allowance chunks1
      (rest.1 + 1, responses ++ rest.2)

/-- `ClientHandler::handle` on a whole connection. -/
def handle (cfg : ClientHandlerConfig)
    (route : HttpRequest → Option Json → HttpResponse)
    (jsonParse : Str → Option Json) (chunks : List Str) : Nat × List HttpResponse :=
  handleLoop cfg route jsonParse cfg.max_requests chunks

end ClientHandler

--
-- FileCache (file_cache.cpp)
--

/-- `struct FileCacheEntry` with the modification time abstracted to a
number (`std::filesystem::file_time_type` is only ever compared for
equality). -/
structure FileCacheEntry where
  content : Str
  last_modified : Nat
deriving DecidableEq, Repr

/-- The process-wide cache state: `s_cache_map` (an `unordered_map`,
modelled as an association list; the per-entry recency iterator the source
stores is recoverable from `s_lru_list` because each cached path occurs in
it exactly once), `s_lru_list` (front = most recent), `s_max_size` and
`s_total_size`. -/
structure FileCacheState where
  cache_map : List (Str × FileCacheEntry)
  lru_list : List Str
  max_size : Nat
  total_size : Nat
deriving DecidableEq, Repr

namespace FileCache

/-- `s_cache_map.find(path)`. -/
def mapFind : List (Str × FileCacheEntry) → Str → Option FileCacheEntry
  | [], _ => none
  | (k, e) :: rest, path => if path == k then some e else mapFind rest path

/-- `s_cache_map.erase(it)` for the iterator found for `path`. -/
def mapErase : List (Str × FileCacheEntry) → Str → List (Str × FileCacheEntry)
  | [], _ => []
  | (k, e) :: rest, path => if path == k then rest else (k, e) :: mapErase rest path

/-- `s_lru_list.erase(stored_iterator)`: under the one-occurrence
invariant this is removal of the (first) occurrence of `path`. -/
def listErase : List Str → Str → List Str
  | [], _ => []
  | k :: rest, path => if path == k then rest else k :: listErase rest path

/-- The source's cache set-up call applied to the statically-initialized
empty state; sizes `≤ 0` fall back to `DEFAULT_MAX_FILE_CACHE_SIZE`
(100).  (The C++ name cannot be a Lean identifier.) -/
def init (max_size : Nat) : FileCacheState :=
  { cache_map := [], lru_list := [],
    max_size := if max_size > 0 then max_size else 100, total_size := 0 }

/-- `FileCache::get`: a hit (present and stored mtime equal) moves the key
to the front of the recency list and returns a copy of the entry;
otherwise a miss with the state untouched. -/
def get (st : FileCacheState) (path : Str) (last_modified : Nat) :
    Option FileCacheEntry × FileCacheState :=
  match mapFind st.cache_map path with
  | some entry =>
    if entry.last_modified == last_modified then
      (some entry, { st with lru_list := path :: listErase st.lru_list path })
    else (none, st)
  | none => (none, st)

/-- The `while (s_cache_map.size() > s_max_size)` loop of
`FileCache::evict_if_needed`.  Each round pops the back of the recency
list, so `lru_list.length + 1` rounds of fuel always suffice; popping the
back of an empty list would be undefined behaviour in the source and is
modelled as stopping. -/
def evictLoop : Nat → FileCacheState → FileCacheState
  | 0, st => st
  | fuel + 1, st =>
    if st.cache_map.length > st.max_size then
      match st.lru_list.getLast? with
      | none => st
      | some lru_path =>
        match mapFind st.cache_map lru_path with
        | some entry =>
          evictLoop fuel
            { st with
              total_size := st.total_size - entry.content.length,
              lru_list := st.lru_list.dropLast,
              cache_map := mapErase st.cache_map lru_path }
        | none => evictLoop fuel { st with lru_list := st.lru_list.dropLast }
    else st

/-- `FileCache::evict_if_needed`. -/
def evict_if_needed (st : FileCacheState) : FileCacheState :=
  evictLoop (st.lru_list.length + 1) st

/-- `FileCache::put`: empty content is refused outright; an existing entry
for the key is removed from map, recency list and size total; the new
entry is inserted at the front; then eviction runs. -/
def put (st : FileCacheState) (path content : Str) (last_modified : Nat) :
    FileCacheState :=
  if content == [] then st
  else
    let st1 :=
      match mapFind st.cache_map path with
      | some entry =>
        { st with
          total_size := st.total_size - entry.content.length,
          lru_list := listErase st.lru_list path,
          cache_map := mapErase st.cache_map path }
      | none => st
    evict_if_needed
      { st1 with
        lru_list := path :: st1.lru_list,
        cache_map := (path, ⟨content, last_modified⟩) :: st1.cache_map,
        total_size := st1.total_size + content.length }

end FileCache

--
-- Router (router.cpp): static-file handling
--

/-- `DEFAULT_STREAM_THRESHOLD` (1 MiB). -/
def DEFAULT_STREAM_THRESHOLD : Nat := 1048576

/-- `format_last_modified` renders the mtime as an RFC 7231 date; with the
mtime abstracted to a number the renderer is abstracted to an injective
rendering (no claim inspects the date text itself). -/
def format_last_modified (t : Nat) : Str :=
  natToStr t

/-- The static-file configuration of the router
(`s_static_files_directory`, `s_static_url_prefix`). -/
structure RouterConfig where
  static_files_directory : Str := "static".toList
  static_url_prefix : Str := "/assets/".toList

/-- Filesystem oracle for the `std::filesystem` calls the static handler
makes; a `none` result models the call setting its `std::error_code` (or
`read_file` failing to open). -/
structure Fs where
  weakly_canonical : Str → Option Str
  canonical : Str → Option Str
  exists_q : Str → Bool
  is_directory : Str → Bool
  file_size : Str → Option Nat
  last_write_time : Str → Option Nat
  read_file : Str → Option Str

/-- `std::filesystem::path::operator/` for POSIX-style string paths: an
absolute right-hand side replaces the left, otherwise the pieces are
joined with a single separator. -/
def pathAppend (root rel : Str) : Str :=
  if strStartsWith rel "/".toList then rel
  else if root == [] then rel
  else if root.getLast? == some '/' then root ++ rel
  else root ++ "/".toList ++ rel

/-- `std::filesystem::path::extension` on the string model: last-dot
suffix of the filename, except for `.`, `..` and dotfiles. -/
def pathExtension (p : Str) : Str :=
  let filename := (p.reverse.takeWhile (fun c => !(c == '/'))).reverse
  if filename == ".".toList || filename == "..".toList then []
  else
    let afterDot := filename.reverse.takeWhile (fun c => !(c == '.'))
    if afterDot.length == filename.length then []
    else if afterDot.length + 1 == filename.length then []
    else '.' :: afterDot.reverse

/-- The `mime_types` table lookup with its `application/octet-stream`
default. -/
def mimeType (ext : Str) : Str :=
  if ext == ".html".toList then "text/html".toList
  else if ext == ".css".toList then "text/css".toList
  else if ext == ".js".toList then "application/javascript".toList
  else if ext == ".png".toList then "image/png".toList
  else if ext == ".jpg".toList then "image/jpeg".toList
  else if ext == ".jpeg".toList then "image/jpeg".toList
  else if ext == ".gif".toList then "image/gif".toList
  else if ext == ".svg".toList then "image/svg+xml".toList
  else if ext == ".json".toList then "application/json".toList
  else if ext == ".ico".toList then "image/x-icon".toList
  else if ext == ".txt".toList then CONTENT_TYPE_PLAIN
  else "application/octet-stream".toList

namespace Router

/-- `Router::client_prefers_html`. -/
def client_prefers_html (request : HttpRequest) : Bool :=
  match hmFind request.headers "Accept".toList with
  | some v => contains_ignore_case v "text/html".toList
  | none => false

/-- `Router::handle_static_file`, with the filesystem behind the `Fs`
oracle and the process-wide cache threaded explicitly.  Every early
`return` of the source maps to returning the pair directly; the final
`response.set_header("Cache-Control", "max-age=3600")` of the source is
applied at the end of each fall-through (success) branch. -/
def handle_static_file (cfg : RouterConfig) (fs : Fs) (request : HttpRequest)
    (cache : FileCacheState) : HttpResponse × FileCacheState :=
  if !(request.method == HttpMethod.GET) ||
      !(strStartsWith request.path cfg.static_url_prefix) then
    ({}, cache)
  else
    let prefers_html := client_prefers_html request
    let error_content_type : Str :=
      if prefers_html then "text/html; charset=utf-8".toList
      else "application/json".toList
    let relative_path_str := request.path.drop cfg.static_url_prefix.length
    if containsSub relative_path_str "..".toList then
      (HttpResponse.mkInl 403
        (if prefers_html then ERROR_403_HTML else jsonError "Access denied".toList)
        error_content_type, cache)
    else
      let full_path := pathAppend cfg.static_files_directory relative_path_str
      match fs.weakly_canonical full_path with
      | none =>
        (HttpResponse.mkInl 500
          (if prefers_html then ERROR_500_HTML
           else jsonError "Failed to resolve file".toList) error_content_type, cache)
      | some canonical_path =>
        let under_root :=
          match fs.canonical cfg.static_files_directory with
          | none => false
          | some canonical_root => strStartsWith canonical_path canonical_root
        if !under_root then
          (HttpResponse.mkInl 403
            (if prefers_html then ERROR_403_HTML
             else jsonError "Access denied".toList) error_content_type, cache)
        else if !(fs.exists_q full_path) || fs.is_directory full_path then
          (HttpResponse.mkInl 404
            (if prefers_html then ERROR_404_HTML
             else jsonError "File not found".toList) error_content_type, cache)
        else
          match fs.file_size full_path with
          | none =>
            (HttpResponse.mkInl 500
              (if prefers_html then ERROR_500_HTML
               else jsonError "Failed to read file".toList) error_content_type, cache)
          | some file_size =>
            let content_type := mimeType (pathExtension full_path)
            match fs.last_write_time full_path with
            | none =>
              (HttpResponse.mkInl 500
                (if prefers_html then ERROR_500_HTML
                 else jsonError "Failed to read file metadata".toList)
                error_content_type, cache)
            | some last_modified =>
              let gotten :=
                if file_size ≤ DEFAULT_STREAM_THRESHOLD then
                  FileCache.get cache full_path last_modified
                else (none, cache)
              match gotten with
              | (some cache_entry, cache1) =>
                match request.range with
                | some range =>
                  let start := range.start
                  let e := if range.end_ == 0 then file_size - 1 else range.end_
                  if start ≥ file_size ∨ start > e ∨ e ≥ file_size then
                    ((HttpResponse.mkInl 416
                        (if prefers_html then ERROR_416_HTML
                         else jsonError "Invalid range".toList)
                        error_content_type).set_header "Content-Range".toList
                      ("bytes */".toList ++ natToStr file_size), cache1)
                  else
                    let content := strSubstr cache_entry.content start (e - start + 1)
                    (((((HttpResponse.mkInl 206 content content_type).set_header
                        "Content-Range".toList
                        ("bytes ".toList ++ natToStr start ++ "-".toList ++ natToStr e
                          ++ "/".toList ++ natToStr file_size)).set_header
                        "Accept-Ranges".toList "bytes".toList).set_header
                        "Last-Modified".toList
                        (format_last_modified last_modified)).set_header
                      "Cache-Control".toList "max-age=3600".toList, cache1)
                | none =>
                  ((((HttpResponse.mkInl 200 cache_entry.content
                        content_type).set_header
                      "Accept-Ranges".toList "bytes".toList).set_header
                      "Last-Modified".toList
                      (format_last_modified last_modified)).set_header
                    "Cache-Control".toList "max-age=3600".toList, cache1)
              | (none, cache1) =>
                if file_size ≤ DEFAULT_STREAM_THRESHOLD then
                  match fs.read_file full_path with
                  | none =>
                    (HttpResponse.mkInl 500
                      (if prefers_html then ERROR_500_HTML
                       else jsonError "Failed to read file".toList)
                      error_content_type, cache1)
                  | some content =>
                    let cache2 := FileCache.put cache1 full_path content last_modified
                    match request.range with
                    | some range =>
                      let start := range.start
                      let e := if range.end_ == 0 then file_size - 1 else range.end_
                      if start ≥ file_size ∨ start > e ∨ e ≥ file_size then
                        ((HttpResponse.mkInl 416
                            (if prefers_html then ERROR_416_HTML
                             else jsonError "Invalid range".toList)
                            error_content_type).set_header "Content-Range".toList
                          ("bytes */".toList ++ natToStr file_size), cache2)
                      else
                        let range_content := strSubstr content start (e - start + 1)
                        (((((HttpResponse.mkInl 206 range_content
                              content_type).set_header "Content-Range".toList
                            ("bytes ".toList ++ natToStr start ++ "-".toList
                              ++ natToStr e ++ "/".toList ++ natToStr file_size)).set_header
                            "Accept-Ranges".toList "bytes".toList).set_header
                            "Last-Modified".toList
                            (format_last_modified last_modified)).set_header
                          "Cache-Control".toList "max-age=3600".toList, cache2)
                    | none =>
                      ((((HttpResponse.mkInl 200 content content_type).set_header
                          "Accept-Ranges".toList "bytes".toList).set_header
                          "Last-Modified".toList
                          (format_last_modified last_modified)).set_header
                        "Cache-Control".toList "max-age=3600".toList, cache2)
                else
                  match request.range with
                  | some range =>
                    let start := range.start
                    let e := if range.end_ == 0 then file_size - 1 else range.end_
                    if start ≥ file_size ∨ start > e ∨ e ≥ file_size then
                      ((HttpResponse.mkInl 416
                          (if prefers_html then ERROR_416_HTML
                           else jsonError "Invalid range".toList)
                          error_content_type).set_header "Content-Range".toList
                        ("bytes */".toList ++ natToStr file_size), cache1)
                    else
                      (((((HttpResponse.mkStream 206
                            ⟨full_path, e - start + 1, start⟩
                            content_type).set_header "Content-Range".toList
                          ("bytes ".toList ++ natToStr start ++ "-".toList
                            ++ natToStr e ++ "/".toList ++ natToStr file_size)).set_header
                          "Accept-Ranges".toList "bytes".toList).set_header
                          "Last-Modified".toList
                          (format_last_modified last_modified)).set_header
                        "Cache-Control".toList "max-age=3600".toList, cache1)
                  | none =>
                    ((((HttpResponse.mkStream 200 ⟨full_path, file_size, 0⟩
                          content_type).set_header
                        "Accept-Ranges".toList "bytes".toList).set_header
                        "Last-Modified".toList
                        (format_last_modified last_modified)).set_header
                      "Cache-Control".toList "max-age=3600".toList, cache1)

end Router

--
-- Test fixtures (closing the open parameters of the model: a trivial
-- registered route and an always-failing JSON parser)
--

/-- A minimal registered route used to close the `Router::route` parameter
in concrete connection runs: every request gets `200 "ok"`. -/
def routeStub : HttpRequest → Option Json → HttpResponse :=
  fun _ _ => HttpResponse.mkInl 200 "ok".toList CONTENT_TYPE_PLAIN

/-- A JSON parser stub for runs that never carry a JSON body. -/
def jsonStub : Str → Option Json :=
  fun _ => none

/-- One `(path, content, mtime)` triple per `FileCache::put` call. -/
def entryOfPut (p : Str × Str × Nat) : Str × FileCacheEntry :=
  (p.1, ⟨p.2.1, p.2.2⟩)

/-- A sequence of `FileCache::put` calls folded over a starting state. -/
def putAll (st : FileCacheState) (ps : List (Str × Str × Nat)) : FileCacheState :=
  ps.foldl (fun s p => FileCache.put s p.1 p.2.1 p.2.2) st

/-- The cache map a sequence of distinct-key puts is expected to leave
behind: the most recent `M` puts, most recent first. -/
def recentOf (ps : List (Str × Str × Nat)) (M : Nat) : List (Str × FileCacheEntry) :=
  (ps.reverse.take M).map entryOfPut

--
-- Claim theorems
--

/-- C2: the spec claims `set_header(k, v1); set_header(k2, v2)` with `k2`
equal to `k` up to ASCII case leaves `get_header(k) = v2` — and the
function's own doc comment says "Sets or replaces".  Evaluating the code
at that input shows `flat_map::emplace` inserts only when the key is
absent, so the FIRST value survives on both the request and the response
map: the code contradicts its own documentation. -/
theorem C2_set_header_second_write_is_dropped :
    (((({} : HttpRequest).set_header "X-Test".toList "v1".toList).set_header
        "x-test".toList "v2".toList).get_header "X-Test".toList) = some "v1".toList ∧
    (((({} : HttpResponse).set_header "X-Test".toList "v1".toList).set_header
        "x-test".toList "v2".toList).get_header "X-Test".toList) = some "v1".toList := by
  exact ⟨by decide, by decide⟩

/-- C10: `FileCache::put` with empty content returns before touching the
map, the recency list or the running size total — the whole state is
unchanged and no eviction happens. -/
theorem C10_put_empty_content_is_noop (st : FileCacheState) (path : Str) (t : Nat) :
    FileCache.put st path [] t = st := rfl

/-- C9: the framing scan of `ClientHandler::get_content_length` searches
for the literal byte sequence "Content-Length:" case-sensitively, so any
header block not containing that exact spelling — in particular one whose
Content-Length header uses any other casing — is counted as zero
occurrences and framed as having no body (`some 0`), even though header
lookup elsewhere (the `flat_map`) is case-insensitive (third conjunct). -/
theorem C9_content_length_scan_is_case_sensitive (cfg : ClientHandlerConfig)
    (headers : Str) (h : containsSub headers ClientHandler.clPattern = false) :
    (ClientHandler.clScanLoop (headers.length + 1) headers 0 0 none).1 = 0 ∧
    ClientHandler.get_content_length cfg headers = some 0 ∧
    hmContains (hmEmplace [] "content-length".toList "5".toList)
      "Content-Length".toList = true := by
  have hf : strFindAux headers ClientHandler.clPattern 0 = none := by
    cases hx : strFindAux headers ClientHandler.clPattern 0 with
    | none => rfl
    | some i => rw [containsSub, hx] at h; simp at h
  have hscan : ClientHandler.clScanLoop (headers.length + 1) headers 0 0 none
      = (0, none) := by
    simp [ClientHandler.clScanLoop, strFindFrom, hf]
  refine ⟨by rw [hscan], ?_, by decide⟩
  simp [ClientHandler.get_content_length, hscan]

/-- C9 witness: a block whose only Content-Length spelling is lowercase is
framed as bodyless. -/
theorem C9_witness :
    containsSub "GET / HTTP/1.1\r\ncontent-length: 5\r\n\r\n".toList
      ClientHandler.clPattern = false ∧
    ClientHandler.get_content_length {}
      "GET / HTTP/1.1\r\ncontent-length: 5\r\n\r\n".toList = some 0 :=
  ⟨by decide,
   (C9_content_length_scan_is_case_sensitive {}
     "GET / HTTP/1.1\r\ncontent-length: 5\r\n\r\n".toList (by decide)).2.1⟩

/-- C3 counterexample: a parsed HTTP/1.1 request carrying
`Connection: Keep-Alive` — "keep-alive" up to ASCII case, which the claim
says yields true — makes `should_keep_alive` return false, because the
header VALUE is compared byte-exactly against "keep-alive". -/
theorem C3_counterexample_mixed_case_keep_alive_closes :
    (HttpRequestParser.parse
      "GET / HTTP/1.1\r\nHost: x\r\nConnection: Keep-Alive\r\n\r\n".toList).map
      ClientHandler.should_keep_alive = some false := by decide

/-- C3 (amended): the keep-alive decision looks the `Connection` header up
case-insensitively, but compares its value byte-exactly: exactly the value
"keep-alive" yields true; any other value (e.g. "close", or "Keep-Alive")
yields false; an absent header keeps the connection alive exactly when the
version is HTTP/1.1. -/
theorem C3_keep_alive_decision (r : HttpRequest) (v : Str) :
    (r.get_header "Connection".toList = some "keep-alive".toList →
      ClientHandler.should_keep_alive r = true) ∧
    (r.get_header "Connection".toList = none →
      (ClientHandler.should_keep_alive r = true ↔ r.version = HttpVersion.HTTP_1_1)) ∧
    (r.get_header "Connection".toList = some v → ¬(v = "keep-alive".toList) →
      ClientHandler.should_keep_alive r = false) := by
  unfold HttpRequest.get_header
  refine ⟨fun h => ?_, fun h => ?_, fun h hv => ?_⟩
  · unfold ClientHandler.should_keep_alive
    rw [h]
    rfl
  · unfold ClientHandler.should_keep_alive
    rw [h]
    simp [beq_iff_eq]
  · unfold ClientHandler.should_keep_alive
    rw [h]
    simpa using hv

/-- C3 witness: the amended decision evaluated at concrete requests —
stored lowercase key found under "Connection", exact value keeps alive
even on HTTP/1.0; bare HTTP/1.1 keeps alive; `Connection: close` closes. -/
theorem C3_keep_alive_decision_witness :
    ClientHandler.should_keep_alive
      { version := .HTTP_1_0,
        headers := hmEmplace [] "connection".toList "keep-alive".toList } = true ∧
    ClientHandler.should_keep_alive ({ version := .HTTP_1_1 } : HttpRequest) = true ∧
    ClientHandler.should_keep_alive
      { version := .HTTP_1_1,
        headers := hmEmplace [] "connection".toList "close".toList } = false := by
  refine ⟨?_, ?_, ?_⟩
  · exact (C3_keep_alive_decision _ []).1 (by decide)
  · exact ((C3_keep_alive_decision ({ version := .HTTP_1_1 } : HttpRequest) []).2.1
      (by decide)).mpr rfl
  · exact (C3_keep_alive_decision _ "close".toList).2.2 (by decide) (by decide)

/-- Helper: the handler loop runs `process_single_request` at most as many
times as its remaining allowance. -/
theorem handleLoop_batches_le (cfg : ClientHandlerConfig)
    (route : HttpRequest → Option Json → HttpResponse)
    (jsonParse : Str → Option Json) :
    ∀ (fuel : Nat) (chunks : List Str),
      (ClientHandler.handleLoop cfg route jsonParse fuel chunks).1 ≤ fuel := by
  intro fuel
  induction fuel with
  | zero => intro chunks; simp [ClientHandler.handleLoop]
  | succ n ih =>
    intro chunks
    unfold ClientHandler.handleLoop
    rcases hp : ClientHandler.process_single_request cfg route jsonParse chunks
      with ⟨ob, rs, c⟩
    cases ob with
    | none => simp [hp]
    | some b =>
      cases b with
      | false => simp [hp]
      | true =>
        simp only [hp]
        have := ih c
        omega

/-- C5 counterexample: with `max_requests = 1`, one read batch containing
two complete pipelined keep-alive requests makes the connection serve TWO
requests (two 200 responses are written), exceeding `max_requests` — the
per-connection counter counts read batches, not pipelined requests. -/
theorem C5_counterexample_pipelined_batch_exceeds_max :
    ({ max_requests := 1 } : ClientHandlerConfig).max_requests = 1 ∧
    (ClientHandler.handle { max_requests := 1 } routeStub jsonStub
      ["GET / HTTP/1.1\r\nHost: x\r\n\r\nGET / HTTP/1.1\r\nHost: x\r\n\r\n".toList]).2.map
      (fun r => r.status_code) = [200, 200] := by
  exact ⟨rfl, by decide⟩

/-- C5 (amended): what never exceeds `max_requests` is the number of read
batches (invocations of `process_single_request`); after that many batches
the loop exits and the connection closes even if keep-alive is true.
Within one batch, every complete pipelined request in the buffer is
served, so the number of individual requests can exceed `max_requests`. -/
theorem C5_read_batches_never_exceed_max_requests (cfg : ClientHandlerConfig)
    (route : HttpRequest → Option Json → HttpResponse)
    (jsonParse : Str → Option Json) (chunks : List Str) :
    (ClientHandler.handle cfg route jsonParse chunks).1 ≤ cfg.max_requests :=
  handleLoop_batches_le cfg route jsonParse cfg.max_requests chunks

/-- C1 counterexample: a request whose header block carries two
Content-Length lines, and one whose single Content-Length exceeds
`max_content_length`, are answered with NO response at all — the handler
returns failure (closing the connection) without writing the claimed 400. -/
theorem C1_counterexample_framing_errors_get_no_response :
    (ClientHandler.process_single_request {} routeStub jsonStub
      ["POST / HTTP/1.1\r\nHost: x\r\nContent-Length: 2\r\nContent-Length: 2\r\n\r\nab".toList]).1
      = none ∧
    (ClientHandler.process_single_request {} routeStub jsonStub
      ["POST / HTTP/1.1\r\nHost: x\r\nContent-Length: 2\r\nContent-Length: 2\r\n\r\nab".toList]).2.1
      = [] ∧
    (ClientHandler.process_single_request { max_content_length := 8 } routeStub jsonStub
      ["POST / HTTP/1.1\r\nHost: x\r\nContent-Length: 9\r\n\r\n".toList]).1 = none ∧
    (ClientHandler.process_single_request { max_content_length := 8 } routeStub jsonStub
      ["POST / HTTP/1.1\r\nHost: x\r\nContent-Length: 9\r\n\r\n".toList]).2.1 = [] := by
  refine ⟨by decide, by decide, by decide, by decide⟩

/-- C1 (amended): when the Content-Length scan of a read header block
fails — two occurrences of the literal "Content-Length:", or a value
above `max_content_length` — the server closes the connection WITHOUT
writing any response (the 400 with `Connection: close` is written only
for parse, Host and JSON errors). -/
theorem C1_content_length_framing_closes_without_response
    (cfg : ClientHandlerConfig) (route : HttpRequest → Option Json → HttpResponse)
    (jsonParse : Str → Option Json) (chunks : List Str)
    (hdr buf : Str) (rest : List Str)
    (hread : ClientHandler.read_headers cfg [] chunks = some (hdr, buf, rest))
    (hcl : ClientHandler.get_content_length cfg hdr = none) :
    (ClientHandler.process_single_request cfg route jsonParse chunks).1 = none ∧
    (ClientHandler.process_single_request cfg route jsonParse chunks).2.1 = [] := by
  unfold ClientHandler.process_single_request ClientHandler.read_requests
  simp only [hread, hcl]
  exact ⟨trivial, trivial⟩

/-- C1 witness: the amended theorem applied to the concrete
double-Content-Length request. -/
theorem C1_witness :
    (ClientHandler.process_single_request {} routeStub jsonStub
      ["GET / HTTP/1.1\r\nHost: x\r\nContent-Length: 1\r\nContent-Length: 1\r\n\r\nz".toList]).1
      = none ∧
    (ClientHandler.process_single_request {} routeStub jsonStub
      ["GET / HTTP/1.1\r\nHost: x\r\nContent-Length: 1\r\nContent-Length: 1\r\n\r\nz".toList]).2.1
      = [] :=
  C1_content_length_framing_closes_without_response {} routeStub jsonStub
    ["GET / HTTP/1.1\r\nHost: x\r\nContent-Length: 1\r\nContent-Length: 1\r\n\r\nz".toList]
    "GET / HTTP/1.1\r\nHost: x\r\nContent-Length: 1\r\nContent-Length: 1\r\n\r\n".toList
    "GET / HTTP/1.1\r\nHost: x\r\nContent-Length: 1\r\nContent-Length: 1\r\n\r\nz".toList
    [] (by decide) (by decide)

/-- Helper: stripping leading whitespace commutes with appending a final
non-space character. -/
theorem trimLeft_append_nonspace (a : Str) (c : Char) (hc : cIsSpace c = false) :
    trimLeft (a ++ [c]) = trimLeft a ++ [c] := by
  induction a with
  | nil => simp [trimLeft, hc]
  | cons x xs ih =>
    by_cases hx : cIsSpace x
    · simp [trimLeft, hx, ih]
    · simp [trimLeft, hx]

/-- Helper: trimming a piece that starts with `=` keeps the leading `=`. -/
theorem trim_eq_cons (v : Str) :
    trim ('=' :: v) = '=' :: (trimLeft v.reverse).reverse := by
  unfold trim
  have h1 : trimLeft ('=' :: v) = '=' :: v := by
    have hns : cIsSpace '=' = false := by decide
    simp [trimLeft, hns]
  rw [h1, List.reverse_cons, trimLeft_append_nonspace _ _ (by decide)]
  simp

/-- Helper: a pair whose key part is empty (the piece starts with `=`) is
skipped by the query-parameter loop. -/
theorem queryPairStep_empty_key (params : ParamMap) (v : Str) :
    queryPairStep params ('=' :: v) = params := by
  unfold queryPairStep
  rw [trim_eq_cons]
  simp [findCharFrom, findCharFrom.strCharAux, strSubstr, trim, trimLeft,
    url_decode, urlDecodeFuel]

/-- C8: query parsing decodes `+` to space and `%HH` percent-escapes
("a=%20&b=+" gives a and b both " "), accumulates repeated keys in
insertion order ("x=1&x=2" gives x = ["1", "2"]), skips every pair whose
key is empty (third conjunct, for all accumulated states), and keeps empty
values ("a=" stores the empty string). -/
theorem C8_query_parsing_correct :
    parse_query_params "a=%20&b=+".toList [] =
      [("a".toList, [" ".toList]), ("b".toList, [" ".toList])] ∧
    parse_query_params "x=1&x=2".toList [] =
      [("x".toList, ["1".toList, "2".toList])] ∧
    (∀ (params : ParamMap) (v : Str), queryPairStep params ('=' :: v) = params) ∧
    parse_query_params "a=&b=2".toList [] =
      [("a".toList, [[]]), ("b".toList, ["2".toList])] :=
  ⟨by decide, by decide, queryPairStep_empty_key, by decide⟩

/-- C4: for every GET request whose path begins with the static URL
prefix, if the prefix-stripped relative path contains "..", or the
weakly-canonicalized resolved path does not lie under the canonical static
root (including the root failing to canonicalize), the static handler
returns 403 — for every filesystem oracle, hence regardless of whether the
target exists. -/
theorem C4_static_path_escape_yields_403
    (cfg : RouterConfig) (fs : Fs) (request : HttpRequest) (cache : FileCacheState)
    (hm : request.method = HttpMethod.GET)
    (hp : strStartsWith request.path cfg.static_url_prefix = true)
    (hesc :
      containsSub (request.path.drop cfg.static_url_prefix.length) "..".toList = true ∨
      (∃ cp, fs.weakly_canonical
          (pathAppend cfg.static_files_directory
            (request.path.drop cfg.static_url_prefix.length)) = some cp ∧
        ∀ cr, fs.canonical cfg.static_files_directory = some cr →
          strStartsWith cp cr = false)) :
    (Router.handle_static_file cfg fs request cache).1.status_code = 403 := by
  unfold Router.handle_static_file
  rcases hesc with h2 | ⟨cp, hwc, hcr⟩
  · have h2' : containsSub (request.path.drop cfg.static_url_prefix.length)
        ['.', '.'] = true := h2
    simp [hm, hp, h2', HttpResponse.mkInl]
  · cases hdd : containsSub (request.path.drop cfg.static_url_prefix.length) ['.', '.'] with
    | true => simp [hm, hp, hdd, HttpResponse.mkInl]
    | false =>
      cases hc : fs.canonical cfg.static_files_directory with
      | none => simp [hm, hp, hdd, hwc, hc, HttpResponse.mkInl]
      | some cr => simp [hm, hp, hdd, hwc, hc, hcr cr hc, HttpResponse.mkInl]

/-- C4 witness: the traversal path `/assets/../etc/passwd` gets 403 on a
filesystem where the target exists, and an under-prefix path whose
resolution escapes the root gets 403 as well. -/
theorem C4_witness :
    (Router.handle_static_file {} 
      { weakly_canonical := fun _ => some "/etc/passwd".toList,
        canonical := fun _ => some "/srv/static".toList,
        exists_q := fun _ => true, is_directory := fun _ => false,
        file_size := fun _ => some 5, last_write_time := fun _ => some 1,
        read_file := fun _ => some "hello".toList }
      { method := .GET, path := "/assets/../etc/passwd".toList }
      (FileCache.init 10)).1.status_code = 403 ∧
    (Router.handle_static_file {}
      { weakly_canonical := fun _ => some "/etc/passwd".toList,
        canonical := fun _ => some "/srv/static".toList,
        exists_q := fun _ => true, is_directory := fun _ => false,
        file_size := fun _ => some 5, last_write_time := fun _ => some 1,
        read_file := fun _ => some "hello".toList }
      { method := .GET, path := "/assets/passwd".toList }
      (FileCache.init 10)).1.status_code = 403 := by
  constructor
  · exact C4_static_path_escape_yields_403 _ _ _ _ rfl (by decide) (Or.inl (by decide))
  · exact C4_static_path_escape_yields_403 _ _ _ _ rfl (by decide)
      (Or.inr ⟨"/etc/passwd".toList, rfl, fun cr hcr => by
        cases hcr; decide⟩)

/-- C6: for every static file of size `S > 0` served inline (size at most
the stream threshold), whether the bytes come from the cache-hit branch
(stored entry with matching mtime), from a cold cache miss, or from a
stale entry re-read from disk, a request with `Range: bytes=0-` (parsed
as `start = 0, end = 0`, `end = 0` meaning end of resource, i.e. `S - 1`)
yields 206 with `Content-Range: bytes 0-(S-1)/S` and a serialized
`Content-Length` of `S` followed by the whole content; a request with
`Range: bytes=S-` yields 416 with `Content-Range: bytes */S`. -/
theorem C6_range_request_correctness
    (cfg : RouterConfig) (fs : Fs) (cache : FileCacheState)
    (p full : Str) (hs : HeaderMap) (bd rw' : Str) (qp fp : ParamMap)
    (S t : Nat) (content : Str) (cp cr : Str)
    (hp : strStartsWith p cfg.static_url_prefix = true)
    (hdd : containsSub (p.drop cfg.static_url_prefix.length) ['.', '.'] = false)
    (hfull : full = pathAppend cfg.static_files_directory
      (p.drop cfg.static_url_prefix.length))
    (hwc : fs.weakly_canonical full = some cp)
    (hcr : fs.canonical cfg.static_files_directory = some cr)
    (hun : strStartsWith cp cr = true)
    (hex : fs.exists_q full = true)
    (hdir : fs.is_directory full = false)
    (hsz : fs.file_size full = some S)
    (hlm : fs.last_write_time full = some t)
    (hlen : content.length = S)
    (hpos : 0 < S)
    (hth : S ≤ DEFAULT_STREAM_THRESHOLD)
    (hsrc : FileCache.mapFind cache.cache_map full
        = some ⟨content, t⟩ ∨
      (FileCache.mapFind cache.cache_map full = none ∧
        fs.read_file full = some content) ∨
      (∃ e, FileCache.mapFind cache.cache_map full = some e ∧
        ¬e.last_modified = t ∧ fs.read_file full = some content)) :
    (Router.handle_static_file cfg fs
        { method := .GET, version := .HTTP_1_1, path := p, headers := hs, body := bd,
          raw := rw', range := some ⟨0, 0⟩, query_params := qp, form_params := fp }
        cache).1.status_code = 206 ∧
    (Router.handle_static_file cfg fs
        { method := .GET, version := .HTTP_1_1, path := p, headers := hs, body := bd,
          raw := rw', range := some ⟨0, 0⟩, query_params := qp, form_params := fp }
        cache).1.get_header "Content-Range".toList =
      some ("bytes 0-".toList ++ natToStr (S - 1) ++ "/".toList ++ natToStr S) ∧
    (∃ pre, HttpResponseBuilder.build
        (Router.handle_static_file cfg fs
          { method := .GET, version := .HTTP_1_1, path := p, headers := hs, body := bd,
            raw := rw', range := some ⟨0, 0⟩, query_params := qp, form_params := fp }
          cache).1 =
      pre ++ "Content-Length: ".toList ++ natToStr S ++ "\r\n\r\n".toList ++ content) ∧
    (Router.handle_static_file cfg fs
        { method := .GET, version := .HTTP_1_1, path := p, headers := hs, body := bd,
          raw := rw', range := some ⟨S, 0⟩, query_params := qp, form_params := fp }
        cache).1.status_code = 416 ∧
    (Router.handle_static_file cfg fs
        { method := .GET, version := .HTTP_1_1, path := p, headers := hs, body := bd,
          raw := rw', range := some ⟨S, 0⟩, query_params := qp, form_params := fp }
        cache).1.get_header "Content-Range".toList =
      some ("bytes */".toList ++ natToStr S) := by
  subst hfull
  have hguard0 : ¬(S = 0 ∨ S ≤ S - 1) := by omega
  have hguardS : (S ≥ S ∨ S > S - 1 ∨ S - 1 ≥ S) := Or.inl (le_refl S)
  have hsub : strSubstr content 0 (S - 1 + 1) = content := by
    have he : S - 1 + 1 = S := by omega
    rw [he]
    unfold strSubstr
    rw [List.drop_zero, ← hlen, List.take_length]
  have h206 : (Router.handle_static_file cfg fs
      { method := .GET, version := .HTTP_1_1, path := p, headers := hs, body := bd,
        raw := rw', range := some ⟨0, 0⟩, query_params := qp, form_params := fp }
      cache).1 =
      ((((HttpResponse.mkInl 206 content
          (mimeType (pathExtension (pathAppend cfg.static_files_directory
            (p.drop cfg.static_url_prefix.length))))).set_header
          "Content-Range".toList
          ("bytes ".toList ++ natToStr 0 ++ "-".toList ++ natToStr (S - 1)
            ++ "/".toList ++ natToStr S)).set_header
          "Accept-Ranges".toList "bytes".toList).set_header
          "Last-Modified".toList (format_last_modified t)).set_header
        "Cache-Control".toList "max-age=3600".toList := by
    unfold Router.handle_static_file
    rcases hsrc with hhit | ⟨hmiss, hrd⟩ | ⟨e, hfind, hne, hrd⟩
    · simp [hp, hdd, hwc, hcr, hun, hex, hdir, hsz, hlm, hth, hguard0, hsub,
        FileCache.get, hhit]
    · simp [hp, hdd, hwc, hcr, hun, hex, hdir, hsz, hlm, hth, hrd, hguard0, hsub,
        FileCache.get, hmiss]
    · have hbne : (e.last_modified == t) = false := by simp [hne]
      simp [hp, hdd, hwc, hcr, hun, hex, hdir, hsz, hlm, hth, hrd, hguard0, hsub,
        FileCache.get, hfind, hbne]
  have h416 : (Router.handle_static_file cfg fs
      { method := .GET, version := .HTTP_1_1, path := p, headers := hs, body := bd,
        raw := rw', range := some ⟨S, 0⟩, query_params := qp, form_params := fp }
      cache).1 =
      (HttpResponse.mkInl 416
        (if Router.client_prefers_html
            { method := .GET, version := .HTTP_1_1, path := p, headers := hs, body := bd,
              raw := rw', range := some ⟨S, 0⟩, query_params := qp, form_params := fp }
          then ERROR_416_HTML else jsonError "Invalid range".toList)
        (if Router.client_prefers_html
            { method := .GET, version := .HTTP_1_1, path := p, headers := hs, body := bd,
              raw := rw', range := some ⟨S, 0⟩, query_params := qp, form_params := fp }
          then "text/html; charset=utf-8".toList
          else "application/json".toList)).set_header
        "Content-Range".toList ("bytes */".toList ++ natToStr S) := by
    unfold Router.handle_static_file
    rcases hsrc with hhit | ⟨hmiss, hrd⟩ | ⟨e, hfind, hne, hrd⟩
    · simp [hp, hdd, hwc, hcr, hun, hex, hdir, hsz, hlm, hth, hguardS,
        FileCache.get, hhit]
    · simp [hp, hdd, hwc, hcr, hun, hex, hdir, hsz, hlm, hth, hrd, hguardS,
        FileCache.get, hmiss]
    · have hbne : (e.last_modified == t) = false := by simp [hne]
      simp [hp, hdd, hwc, hcr, hun, hex, hdir, hsz, hlm, hth, hrd, hguardS,
        FileCache.get, hfind, hbne]
  refine ⟨?_, ?_, ?_, ?_, ?_⟩
  · rw [h206]; rfl
  · rw [h206]; rfl
  · rw [h206]
    refine ⟨http_version_to_string_view .HTTP_1_1 ++ " ".toList
      ++ natToStr 206 ++ " ".toList ++ status_code_to_string_view 206 ++ "\r\n".toList
      ++ HttpResponseBuilder.headerLines
        (((((HttpResponse.mkInl 206 content
          (mimeType (pathExtension (pathAppend cfg.static_files_directory
            (p.drop cfg.static_url_prefix.length))))).set_header
          "Content-Range".toList
          ("bytes ".toList ++ natToStr 0 ++ "-".toList ++ natToStr (S - 1)
            ++ "/".toList ++ natToStr S)).set_header
          "Accept-Ranges".toList "bytes".toList).set_header
          "Last-Modified".toList (format_last_modified t)).set_header
        "Cache-Control".toList "max-age=3600".toList).headers, ?_⟩
    simp [HttpResponseBuilder.build, HttpResponse.set_header, HttpResponse.mkInl,
      hlen, List.append_assoc]
  · rw [h416]; rfl
  · rw [h416]; rfl

/-- C6 witness: a five-byte file "hello" under the default static root,
exercised on BOTH inline branches — a warm cache holding the entry with
matching mtime (cache-hit branch) and a fresh empty cache (read-and-put
branch): `bytes=0-` yields 206 with `Content-Range: bytes 0-4/5` and a
serialized `Content-Length: 5`, `bytes=5-` yields 416 with
`Content-Range: bytes */5`. -/
theorem C6_witness :
    ((Router.handle_static_file {}
        { weakly_canonical := fun _ => some "/srv/static/doc.txt".toList,
          canonical := fun _ => some "/srv/static".toList,
          exists_q := fun _ => true, is_directory := fun _ => false,
          file_size := fun _ => some 5, last_write_time := fun _ => some 42,
          read_file := fun _ => some "hello".toList }
        { method := .GET, version := .HTTP_1_1, path := "/assets/doc.txt".toList,
          headers := [], body := [], raw := [], range := some ⟨0, 0⟩,
          query_params := [], form_params := [] }
        (FileCache.put (FileCache.init 10) "static/doc.txt".toList
          "hello".toList 42)).1.status_code = 206 ∧
     (Router.handle_static_file {}
        { weakly_canonical := fun _ => some "/srv/static/doc.txt".toList,
          canonical := fun _ => some "/srv/static".toList,
          exists_q := fun _ => true, is_directory := fun _ => false,
          file_size := fun _ => some 5, last_write_time := fun _ => some 42,
          read_file := fun _ => some "hello".toList }
        { method := .GET, version := .HTTP_1_1, path := "/assets/doc.txt".toList,
          headers := [], body := [], raw := [], range := some ⟨0, 0⟩,
          query_params := [], form_params := [] }
        (FileCache.put (FileCache.init 10) "static/doc.txt".toList
          "hello".toList 42)).1.get_header "Content-Range".toList =
      some ("bytes 0-".toList ++ natToStr (5 - 1) ++ "/".toList ++ natToStr 5) ∧
     (∃ pre, HttpResponseBuilder.build
        (Router.handle_static_file {}
          { weakly_canonical := fun _ => some "/srv/static/doc.txt".toList,
            canonical := fun _ => some "/srv/static".toList,
            exists_q := fun _ => true, is_directory := fun _ => false,
            file_size := fun _ => some 5, last_write_time := fun _ => some 42,
            read_file := fun _ => some "hello".toList }
          { method := .GET, version := .HTTP_1_1, path := "/assets/doc.txt".toList,
            headers := [], body := [], raw := [], range := some ⟨0, 0⟩,
            query_params := [], form_params := [] }
          (FileCache.put (FileCache.init 10) "static/doc.txt".toList
            "hello".toList 42)).1 =
      pre ++ "Content-Length: ".toList ++ natToStr 5 ++ "\r\n\r\n".toList
        ++ "hello".toList) ∧
     (Router.handle_static_file {}
        { weakly_canonical := fun _ => some "/srv/static/doc.txt".toList,
          canonical := fun _ => some "/srv/static".toList,
          exists_q := fun _ => true, is_directory := fun _ => false,
          file_size := fun _ => some 5, last_write_time := fun _ => some 42,
          read_file := fun _ => some "hello".toList }
        { method := .GET, version := .HTTP_1_1, path := "/assets/doc.txt".toList,
          headers := [], body := [], raw := [], range := some ⟨5, 0⟩,
          query_params := [], form_params := [] }
        (FileCache.put (FileCache.init 10) "static/doc.txt".toList
          "hello".toList 42)).1.status_code = 416 ∧
     (Router.handle_static_file {}
        { weakly_canonical := fun _ => some "/srv/static/doc.txt".toList,
          canonical := fun _ => some "/srv/static".toList,
          exists_q := fun _ => true, is_directory := fun _ => false,
          file_size := fun _ => some 5, last_write_time := fun _ => some 42,
          read_file := fun _ => some "hello".toList }
        { method := .GET, version := .HTTP_1_1, path := "/assets/doc.txt".toList,
          headers := [], body := [], raw := [], range := some ⟨5, 0⟩,
          query_params := [], form_params := [] }
        (FileCache.put (FileCache.init 10) "static/doc.txt".toList
          "hello".toList 42)).1.get_header "Content-Range".toList =
      some ("bytes */".toList ++ natToStr 5)) ∧
    ((Router.handle_static_file {}
        { weakly_canonical := fun _ => some "/srv/static/doc.txt".toList,
          canonical := fun _ => some "/srv/static".toList,
          exists_q := fun _ => true, is_directory := fun _ => false,
          file_size := fun _ => some 5, last_write_time := fun _ => some 42,
          read_file := fun _ => some "hello".toList }
        { method := .GET, version := .HTTP_1_1, path := "/assets/doc.txt".toList,
          headers := [], body := [], raw := [], range := some ⟨0, 0⟩,
          query_params := [], form_params := [] }
        (FileCache.init 10)).1.status_code = 206 ∧
     (Router.handle_static_file {}
        { weakly_canonical := fun _ => some "/srv/static/doc.txt".toList,
          canonical := fun _ => some "/srv/static".toList,
          exists_q := fun _ => true, is_directory := fun _ => false,
          file_size := fun _ => some 5, last_write_time := fun _ => some 42,
          read_file := fun _ => some "hello".toList }
        { method := .GET, version := .HTTP_1_1, path := "/assets/doc.txt".toList,
          headers := [], body := [], raw := [], range := some ⟨0, 0⟩,
          query_params := [], form_params := [] }
        (FileCache.init 10)).1.get_header "Content-Range".toList =
      some ("bytes 0-".toList ++ natToStr (5 - 1) ++ "/".toList ++ natToStr 5) ∧
     (Router.handle_static_file {}
        { weakly_canonical := fun _ => some "/srv/static/doc.txt".toList,
          canonical := fun _ => some "/srv/static".toList,
          exists_q := fun _ => true, is_directory := fun _ => false,
          file_size := fun _ => some 5, last_write_time := fun _ => some 42,
          read_file := fun _ => some "hello".toList }
        { method := .GET, version := .HTTP_1_1, path := "/assets/doc.txt".toList,
          headers := [], body := [], raw := [], range := some ⟨5, 0⟩,
          query_params := [], form_params := [] }
        (FileCache.init 10)).1.status_code = 416) := by
  constructor
  · exact (C6_range_request_correctness {}
      { weakly_canonical := fun _ => some "/srv/static/doc.txt".toList,
        canonical := fun _ => some "/srv/static".toList,
        exists_q := fun _ => true, is_directory := fun _ => false,
        file_size := fun _ => some 5, last_write_time := fun _ => some 42,
        read_file := fun _ => some "hello".toList }
      (FileCache.put (FileCache.init 10) "static/doc.txt".toList "hello".toList 42)
      "/assets/doc.txt".toList "static/doc.txt".toList
      [] [] [] [] [] 5 42 "hello".toList "/srv/static/doc.txt".toList
      "/srv/static".toList (by decide) (by decide) (by decide) rfl rfl (by decide)
      rfl rfl rfl rfl (by decide) (by decide) (by decide) (Or.inl (by decide)))
  · have h := C6_range_request_correctness {}
      { weakly_canonical := fun _ => some "/srv/static/doc.txt".toList,
        canonical := fun _ => some "/srv/static".toList,
        exists_q := fun _ => true, is_directory := fun _ => false,
        file_size := fun _ => some 5, last_write_time := fun _ => some 42,
        read_file := fun _ => some "hello".toList }
      (FileCache.init 10) "/assets/doc.txt".toList "static/doc.txt".toList
      [] [] [] [] [] 5 42 "hello".toList "/srv/static/doc.txt".toList
      "/srv/static".toList (by decide) (by decide) (by decide) rfl rfl (by decide)
      rfl rfl rfl rfl (by decide) (by decide) (by decide)
      (Or.inr (Or.inl ⟨rfl, rfl⟩))
    exact ⟨h.1, h.2.1, h.2.2.2.1⟩

/-- Helper: a key outside the stored keys is not found. -/
theorem mapFind_eq_none_of_not_mem (m : List (Str × FileCacheEntry)) (k : Str)
    (h : k ∉ m.map Prod.fst) : FileCache.mapFind m k = none := by
  induction m with
  | nil => rfl
  | cons a rest ih =>
    simp only [List.map_cons, List.mem_cons] at h
    push_neg at h
    unfold FileCache.mapFind
    have : (k == a.1) = false := by
      simp [h.1]
    simp [this, ih h.2]

/-- Helper: looking up the key of a final entry not shadowed earlier. -/
theorem mapFind_append_singleton (m : List (Str × FileCacheEntry)) (k : Str)
    (e : FileCacheEntry) (h : k ∉ m.map Prod.fst) :
    FileCache.mapFind (m ++ [(k, e)]) k = some e := by
  induction m with
  | nil => simp [FileCache.mapFind]
  | cons a rest ih =>
    simp only [List.map_cons, List.mem_cons] at h
    push_neg at h
    unfold FileCache.mapFind
    have : (k == a.1) = false := by simp [h.1]
    simp [this, ih h.2]

/-- Helper: erasing the key of a final entry removes exactly that entry. -/
theorem mapErase_append_singleton (m : List (Str × FileCacheEntry)) (k : Str)
    (e : FileCacheEntry) (h : k ∉ m.map Prod.fst) :
    FileCache.mapErase (m ++ [(k, e)]) k = m := by
  induction m with
  | nil => simp [FileCache.mapErase]
  | cons a rest ih =>
    simp only [List.map_cons, List.mem_cons] at h
    push_neg at h
    unfold FileCache.mapErase
    have : (k == a.1) = false := by simp [h.1]
    simp [this, ih h.2]

/-- Helper: `FileCache::put` of a fresh key on a synced state (map and
recency list aligned, at most `M` entries): the new entry goes to the
front and, when the map was full, exactly the least-recently-used (last)
entry is evicted. -/
theorem put_fresh_characterization (M : Nat) (hM : 1 ≤ M)
    (st : FileCacheState) (m : List (Str × FileCacheEntry))
    (hmap : st.cache_map = m) (hlru : st.lru_list = m.map Prod.fst)
    (hmax : st.max_size = M) (hlen : m.length ≤ M)
    (hnd : (m.map Prod.fst).Nodup)
    (k c : Str) (t : Nat) (hk : k ∉ m.map Prod.fst) (hc : c ≠ []) :
    (FileCache.put st k c t).cache_map =
      (if m.length = M then ((k, ⟨c, t⟩) :: m).dropLast else (k, ⟨c, t⟩) :: m) ∧
    (FileCache.put st k c t).lru_list =
      (if m.length = M then ((k, ⟨c, t⟩) :: m).dropLast
       else (k, ⟨c, t⟩) :: m).map Prod.fst ∧
    (FileCache.put st k c t).max_size = M := by
  have hcb : (c == ([] : Str)) = false := by simp [hc]
  have hfind : FileCache.mapFind st.cache_map k = none := by
    rw [hmap]; exact mapFind_eq_none_of_not_mem m k hk
  unfold FileCache.put
  rw [hcb]
  simp only [Bool.false_eq_true, if_false, hfind]
  unfold FileCache.evict_if_needed
  by_cases hfull : m.length = M
  · rcases List.eq_nil_or_concat m with rfl | ⟨m', a, hma⟩
    · simp at hfull; omega
    · rw [List.concat_eq_append] at hma
      subst hma
      have hk1 : k ∉ (m' ++ [a]).map Prod.fst := hk
      have hand : a.1 ∉ m'.map Prod.fst → True := fun _ => trivial
      have hlru1 : st.lru_list = m'.map Prod.fst ++ [a.1] := by
        rw [hlru]; simp
      have hfuel : (k :: st.lru_list).length + 1
          = (m'.length + 1) + 1 + 1 := by
        rw [hlru1]; simp
      rw [hfuel]
      unfold FileCache.evictLoop
      have hgt : ((k, (⟨c, t⟩ : FileCacheEntry)) :: st.cache_map).length > st.max_size := by
        rw [hmap, hmax]
        simp at hfull ⊢
        omega
      simp only [hgt, if_true, hmap, hmax, hlru]
      have hlast : ((k :: (m' ++ [a]).map Prod.fst).getLast?) = some a.1 := by
        have hsplit : k :: (m' ++ [a]).map Prod.fst = (k :: m'.map Prod.fst) ++ [a.1] := by
          simp
        rw [hsplit, List.getLast?_concat]
      have hne : a.1 ∉ m'.map Prod.fst := by
        rw [List.map_append] at hnd
        rcases List.nodup_append.mp hnd with ⟨-, -, hdisj⟩
        intro hmem
        exact hdisj hmem (by simp)
      have hmema : a.1 ∈ List.map Prod.fst (m' ++ [a]) := by
        rw [List.map_append]
        exact List.mem_append_right _ (List.mem_map_of_mem Prod.fst (List.mem_singleton_self a))
      have hka : (a.1 == k) = false := by
        have hne2 : ¬a.1 = k := fun he => hk (he ▸ hmema)
        simp [hne2]
      have hfind2 : FileCache.mapFind
          ((k, (⟨c, t⟩ : FileCacheEntry)) :: (m' ++ [a])) a.1 = some a.2 := by
        unfold FileCache.mapFind
        rw [hka]
        simpa using mapFind_append_singleton m' a.1 a.2 hne
      have herase : FileCache.mapErase
          ((k, (⟨c, t⟩ : FileCacheEntry)) :: (m' ++ [a])) a.1
          = (k, (⟨c, t⟩ : FileCacheEntry)) :: m' := by
        unfold FileCache.mapErase
        rw [hka]
        simpa using mapErase_append_singleton m' a.1 a.2 hne
      have hdrop : (k :: List.map Prod.fst (m' ++ [a])).dropLast
          = k :: List.map Prod.fst m' := by
        have hsplit : k :: List.map Prod.fst (m' ++ [a])
            = (k :: List.map Prod.fst m') ++ [a.1] := by simp
        rw [hsplit, List.dropLast_concat]
      have hgt2 : ((k, (⟨c, t⟩ : FileCacheEntry)) :: (m' ++ [a])).length > M := by
        simp at hfull ⊢
        omega
      rw [if_pos hgt2, hlast]
      simp only [hfind2, herase, hdrop]
      have hng : ¬(((k, (⟨c, t⟩ : FileCacheEntry)) :: m').length > M) := by
        simp at hfull ⊢
        omega
      unfold FileCache.evictLoop
      rw [if_neg hng, if_pos hfull]
      have hdrop2 : ((k, (⟨c, t⟩ : FileCacheEntry)) :: (m' ++ [a])).dropLast
          = (k, (⟨c, t⟩ : FileCacheEntry)) :: m' := by
        have hsplit : (k, (⟨c, t⟩ : FileCacheEntry)) :: (m' ++ [a])
            = ((k, (⟨c, t⟩ : FileCacheEntry)) :: m') ++ [a] := by simp
        rw [hsplit, List.dropLast_concat]
      rw [hdrop2]
      exact ⟨rfl, by simp, rfl⟩
  · have hng : ¬(((k, (⟨c, t⟩ : FileCacheEntry)) :: m).length > M) := by
      simp
      omega
    have hfuel : (k :: st.lru_list).length + 1 = (m.length + 1) + 1 := by
      rw [hlru]; simp
    rw [hfuel]
    unfold FileCache.evictLoop
    rw [hmap, hmax, if_neg hng, if_neg hfull]
    exact ⟨rfl, by rw [hlru]; simp, rfl⟩

/-- Helper: folding distinct-key, non-empty-content puts over an empty
cache of capacity `M` leaves exactly the most recent `M` puts, most recent
first, with the recency list aligned with the map. -/
theorem putAll_characterization (M T0 : Nat) (hM : 1 ≤ M) :
    ∀ ps : List (Str × Str × Nat),
      (ps.map (fun q => q.1)).Nodup →
      (∀ q ∈ ps, q.2.1 ≠ []) →
      (putAll ⟨[], [], M, T0⟩ ps).cache_map = recentOf ps M ∧
      (putAll ⟨[], [], M, T0⟩ ps).lru_list = (recentOf ps M).map Prod.fst ∧
      (putAll ⟨[], [], M, T0⟩ ps).max_size = M := by
  intro ps
  induction ps using List.reverseRecOn with
  | nil => intro _ _; refine ⟨by simp [putAll, recentOf], by simp [putAll, recentOf], rfl⟩
  | append_singleton ps q ih =>
    intro hnd hcont
    have hstep : putAll ⟨[], [], M, T0⟩ (ps ++ [q])
        = FileCache.put (putAll ⟨[], [], M, T0⟩ ps) q.1 q.2.1 q.2.2 := by
      simp [putAll, List.foldl_append]
    rw [List.map_append] at hnd
    rcases List.nodup_append.mp hnd with ⟨hnd1, -, hdisj⟩
    have hq : q.1 ∉ ps.map (fun r => r.1) := by
      intro hmem
      exact hdisj hmem (by simp)
    have hcont1 : ∀ r ∈ ps, r.2.1 ≠ [] := fun r hr => hcont r (List.mem_append_left _ hr)
    have hcq : q.2.1 ≠ [] := hcont q (List.mem_append_right _ (List.mem_singleton_self q))
    obtain ⟨ihm, ihl, ihx⟩ := ih hnd1 hcont1
    have hmkeys : (recentOf ps M).map Prod.fst = (ps.reverse.take M).map (fun r => r.1) := by
      simp [recentOf, entryOfPut, List.map_map]
      rfl
    have hmlen : (recentOf ps M).length ≤ M := by
      simp [recentOf, List.length_take]
    have htk : (ps.reverse.take M).map (fun r => r.1)
        = ((ps.map (fun r => r.1)).reverse).take M := by
      rw [List.map_take, List.map_reverse]
    have hks_nodup : ((recentOf ps M).map Prod.fst).Nodup := by
      rw [hmkeys, htk]
      exact (List.take_sublist _ _).nodup (List.nodup_reverse.mpr hnd1)
    have hkfresh : q.1 ∉ (recentOf ps M).map Prod.fst := by
      rw [hmkeys, htk]
      intro hmem
      exact hq (List.mem_reverse.mp ((List.take_sublist _ _).subset hmem))
    obtain ⟨hc1, hc2, hc3⟩ := put_fresh_characterization M hM
      (putAll ⟨[], [], M, T0⟩ ps) (recentOf ps M) ihm ihl ihx hmlen hks_nodup
      q.1 q.2.1 q.2.2 hkfresh hcq
    have hrec : (if (recentOf ps M).length = M
          then ((q.1, (⟨q.2.1, q.2.2⟩ : FileCacheEntry)) :: recentOf ps M).dropLast
          else (q.1, (⟨q.2.1, q.2.2⟩ : FileCacheEntry)) :: recentOf ps M)
        = recentOf (ps ++ [q]) M := by
      have hM1 : M = (M - 1) + 1 := by omega
      have hr : recentOf (ps ++ [q]) M
          = (q.1, (⟨q.2.1, q.2.2⟩ : FileCacheEntry))
            :: (ps.reverse.take (M - 1)).map entryOfPut := by
        unfold recentOf
        rw [List.reverse_append]
        have h1 : ([q].reverse : List (Str × Str × Nat)) ++ ps.reverse = q :: ps.reverse := by
          simp
        rw [h1]
        conv in List.take M (q :: _) => rw [hM1]
        rw [List.take_succ_cons]
        rfl
      by_cases hfull : (recentOf ps M).length = M
      · have hlen2 : M ≤ ps.reverse.length := by
          simp [recentOf, List.length_take] at hfull
          simp
          omega
        rw [if_pos hfull, hr]
        have hmne : recentOf ps M ≠ [] := by
          intro hz
          rw [hz] at hfull
          simp at hfull
          omega
        rw [List.dropLast_cons_of_ne_nil hmne]
        congr 1
        unfold recentOf
        rw [← List.map_dropLast]
        congr 1
        rw [List.dropLast_eq_take, List.length_take, List.take_take]
        congr 1
        omega
      · have hlt : ps.reverse.length < M := by
          simp [recentOf, List.length_take] at hfull
          simp
          omega
        rw [if_neg hfull, hr]
        congr 1
        unfold recentOf
        congr 1
        rw [List.take_of_length_le (by omega), List.take_of_length_le (by omega)]
    rw [hstep]
    refine ⟨?_, ?_, ?_⟩
    · rw [hc1, hrec]
    · rw [hc2, hrec]
    · exact hc3

/-- C7 counterexample: the claim quantifies over arbitrary contents, but
`FileCache::put` with empty content is a no-op, so after
`put(p, "a", 1); put(p, "", 2)` (mtimes 1 ≠ 2) the lookup `get(p, 1)`
HITS the stale entry (the claim says it must miss) and `get(p, 2)`
misses (the claim says it must hit the new content). -/
theorem C7_counterexample_empty_second_put :
    (FileCache.get (FileCache.put (FileCache.put (FileCache.init 10)
      "p".toList "a".toList 1) "p".toList [] 2) "p".toList 1).1
      = some ⟨"a".toList, 1⟩ ∧
    (FileCache.get (FileCache.put (FileCache.put (FileCache.init 10)
      "p".toList "a".toList 1) "p".toList [] 2) "p".toList 2).1 = none := by
  exact ⟨by decide, by decide⟩

/-- C7 (amended): with non-empty contents (put refuses empty content) the
claim holds: after `put(p, c1, t1)` then `put(p, c2, t2)` with `t1 ≠ t2`
on a fresh cache, `get(p, t1)` misses and `get(p, t2)` hits `c2` — an
entry is never served for an mtime other than the stored one; and after
`N + 1` puts of distinct keys with non-empty contents and no intervening
gets on a fresh cache of capacity `N ≥ 1`, the first (least recently
used) key is absent while the map holds exactly `N` entries and never
exceeds `N` after any prefix of the puts. -/
theorem C7_cache_correctness :
    (∀ (N : Nat) (p c1 c2 : Str) (t1 t2 : Nat), c1 ≠ [] → c2 ≠ [] → t1 ≠ t2 →
      (FileCache.get (FileCache.put (FileCache.put (FileCache.init N) p c1 t1)
        p c2 t2) p t1).1 = none ∧
      (FileCache.get (FileCache.put (FileCache.put (FileCache.init N) p c1 t1)
        p c2 t2) p t2).1 = some ⟨c2, t2⟩) ∧
    (∀ (N : Nat) (ps : List (Str × Str × Nat)), 1 ≤ N → ps.length = N + 1 →
      (ps.map (fun q => q.1)).Nodup → (∀ q ∈ ps, q.2.1 ≠ []) →
      (∀ q0 ∈ ps.head?,
        FileCache.mapFind (putAll (FileCache.init N) ps).cache_map q0.1 = none) ∧
      (putAll (FileCache.init N) ps).cache_map.length = N ∧
      (∀ i, (putAll (FileCache.init N) (ps.take i)).cache_map.length ≤ N)) := by
  constructor
  · intro N p c1 c2 t1 t2 hc1 hc2 ht
    have hb1 : (c1 == ([] : Str)) = false := by simp [hc1]
    have hb2 : (c2 == ([] : Str)) = false := by simp [hc2]
    have hbt : (t2 == t1) = false := by simp [Ne.symm ht]
    have hng : ¬(1 > (if N > 0 then N else 100)) := by split <;> omega
    simp [FileCache.init, FileCache.put, FileCache.get, FileCache.mapFind,
      FileCache.mapErase, FileCache.listErase, FileCache.evict_if_needed,
      FileCache.evictLoop, hb1, hb2, hbt, hng]
  · intro N ps hN hlen hnd hcont
    have hinit : FileCache.init N
        = (⟨[], [], N, 0⟩ : FileCacheState) := by
      unfold FileCache.init
      rw [if_pos (by omega)]
    rw [hinit]
    obtain ⟨hm, -, -⟩ := putAll_characterization N 0 hN ps hnd hcont
    refine ⟨?_, ?_, ?_⟩
    · intro q0 hq0
      cases ps with
      | nil => simp at hq0
      | cons qh rest =>
        have hq0' : qh = q0 := by simpa using hq0
        subst hq0'
        rw [hm]
        apply mapFind_eq_none_of_not_mem
        have hrlen : rest.reverse.length = N := by
          simp at hlen ⊢
          omega
        have hkeys : recentOf (qh :: rest) N = rest.reverse.map entryOfPut := by
          unfold recentOf
          have hsplit : (qh :: rest).reverse = rest.reverse ++ [qh] := by simp
          rw [hsplit, List.take_append_eq_append_take,
            List.take_of_length_le (by omega)]
          have : N - rest.reverse.length = 0 := by omega
          rw [this]
          simp
        rw [hkeys]
        rcases List.nodup_cons.mp hnd with ⟨hhd, -⟩
        intro hmem
        apply hhd
        have : qh.1 ∈ (rest.reverse.map (fun r => r.1)) := by
          have hcomp : (rest.reverse.map entryOfPut).map Prod.fst
              = rest.reverse.map (fun r => r.1) := by
            rw [List.map_map]; rfl
          rw [hcomp] at hmem
          exact hmem
        rcases List.mem_map.mp this with ⟨r, hrmem, hreq⟩
        exact List.mem_map.mpr ⟨r, List.mem_reverse.mp hrmem, hreq⟩
    · rw [hm]
      unfold recentOf
      simp [List.length_take]
      omega
    · intro i
      have hndi : ((ps.take i).map (fun q => q.1)).Nodup := by
        rw [List.map_take]
        exact (List.take_sublist _ _).nodup hnd
      have hconti : ∀ q ∈ ps.take i, q.2.1 ≠ [] :=
        fun q hq => hcont q ((List.take_sublist _ _).subset hq)
      obtain ⟨hmi, -, -⟩ := putAll_characterization N 0 hN (ps.take i) hndi hconti
      rw [hmi]
      unfold recentOf
      simp [List.length_take]

/-- C7 witness: the amended cache laws evaluated at concrete inputs — a
double put of non-empty contents with different mtimes, and three
distinct-key puts into a capacity-2 cache. -/
theorem C7_witness :
    ((FileCache.get (FileCache.put (FileCache.put (FileCache.init 10)
        "p".toList "a".toList 1) "p".toList "bb".toList 2) "p".toList 1).1 = none ∧
     (FileCache.get (FileCache.put (FileCache.put (FileCache.init 10)
        "p".toList "a".toList 1) "p".toList "bb".toList 2) "p".toList 2).1
        = some ⟨"bb".toList, 2⟩) ∧
    ((∀ q0 ∈ ([("a".toList, "1".toList, 1), ("b".toList, "2".toList, 2),
        ("c".toList, "3".toList, 3)] : List (Str × Str × Nat)).head?,
      FileCache.mapFind (putAll (FileCache.init 2)
        [("a".toList, "1".toList, 1), ("b".toList, "2".toList, 2),
         ("c".toList, "3".toList, 3)]).cache_map q0.1 = none) ∧
     (putAll (FileCache.init 2)
        [("a".toList, "1".toList, 1), ("b".toList, "2".toList, 2),
         ("c".toList, "3".toList, 3)]).cache_map.length = 2 ∧
     (∀ i, (putAll (FileCache.init 2)
        ([("a".toList, "1".toList, 1), ("b".toList, "2".toList, 2),
          ("c".toList, "3".toList, 3)].take i)).cache_map.length ≤ 2)) := by
  constructor
  · exact C7_cache_correctness.1 10 "p".toList "a".toList "bb".toList 1 2
      (by decide) (by decide) (by decide)
  · exact C7_cache_correctness.2 2
      [("a".toList, "1".toList, 1), ("b".toList, "2".toList, 2),
       ("c".toList, "3".toList, 3)]
      (by decide) (by decide) (by decide) (by decide)
